import Mathlib

/-!
# Verification of the BAB-INSA/api match-lifecycle and rating engine

Shallow embedding of the Go sources:
* `packages/core/utils/elo.go` — the rating-delta functions,
* `packages/core/services/stats_service.go` (MatchService) — solo match lifecycle,
* the TeamMatchService / TeamService (team match lifecycle and team stats),
* the PlayerService rank recomputation and the AutoValidationService sweeper.

Ratings are `float64` in the source; they are modelled as real numbers, with
`Real.rpow` standing for `math.Pow` and `goRound` standing for `math.Round`
(round to nearest, halves away from zero).  Times (`time.Time`) are modelled
as integers measured in hours, so that the sweeper's 24-hour window is the
literal `24`.  Database rows are lists of records; a gorm soft delete is a
`deleted` flag which every ordinary query filters out.  Fallible operations
return `Except String`, the error string being the one built by the Go code.
-/

namespace BabApi

/-- `models.Player` (players table), including the rank, streak and team-mode
columns added by the migrations (`rank`, `current_win_streak`,
`best_win_streak`, `team_elo_rating`, `team_rank`, `team_total_matches`,
`team_wins`, `team_losses`). -/
structure Player where
  id : Nat
  eloRating : ℝ
  rank : Nat
  totalMatches : ℤ
  wins : ℤ
  losses : ℤ
  currentWinStreak : ℤ
  bestWinStreak : ℤ
  teamEloRating : ℝ
  teamRank : Nat
  teamTotalMatches : ℤ
  teamWins : ℤ
  teamLosses : ℤ

/-- `models.Match` (matches table).  `deleted` models the gorm `DeletedAt`
soft-delete tombstone. -/
structure GameMatch where
  id : Nat
  player1Id : Nat
  player2Id : Nat
  winnerId : Nat
  status : String
  createdAt : ℤ
  confirmedAt : Option ℤ
  deleted : Bool
deriving DecidableEq

/-- `models.TeamMatch` (team_matches table). -/
structure TeamMatch where
  id : Nat
  team1Id : Nat
  team2Id : Nat
  winnerTeamId : Nat
  status : String
  createdAt : ℤ
  confirmedAt : Option ℤ
  deleted : Bool
deriving DecidableEq

/-- `models.Team` (teams table, aggregate part). -/
structure Team where
  id : Nat
  player1Id : Nat
  player2Id : Nat
  eloRating : ℝ
  totalMatches : ℤ
  wins : ℤ
  losses : ℤ

/-- `models.EloHistory` (elo_history table). -/
structure EloHistory where
  playerId : Nat
  matchId : Nat
  eloBefore : ℝ
  eloAfter : ℝ
  eloChange : ℝ
  opponentId : Option Nat
  opponentTeamId : Option Nat
  matchType : String
  createdAt : ℤ

/-- The database state seen by the services. -/
structure DB where
  players : List Player
  matchRows : List GameMatch
  teamMatches : List TeamMatch
  teams : List Team
  histories : List EloHistory

/-- `models.UpdateMatchStatusRequest`: optional new status and optional
winner override. -/
structure UpdateMatchStatusRequest where
  status : Option String
  winnerId : Option Nat

/-- `models.UpdateTeamMatchStatusRequest`. -/
structure UpdateTeamMatchStatusRequest where
  status : Option String
  winnerTeamId : Option Nat

/-! ## RatingMath (`packages/core/utils/elo.go`) -/

/-- Go's `math.Round`: round to the nearest integer, halves away from zero. -/
noncomputable def goRound (x : ℝ) : ℝ :=
  if x < 0 then -((⌊-x + 1/2⌋ : ℤ) : ℝ) else ((⌊x + 1/2⌋ : ℤ) : ℝ)

/-- `utils.CalculateEloChange`: standard two-sided ELO update with `K = 32`,
both deltas rounded independently.  Returns `(player1Change, player2Change)`. -/
noncomputable def CalculateEloChange (player1Elo player2Elo : ℝ)
    (winnerID player1ID : Nat) : ℝ × ℝ :=
  let K : ℝ := 32
  let expectedScore1 : ℝ := 1 / (1 + (10 : ℝ) ^ ((player2Elo - player1Elo) / 400))
  let expectedScore2 : ℝ := 1 - expectedScore1
  let actualScore1 : ℝ := if winnerID = player1ID then 1 else 0
  let actualScore2 : ℝ := if winnerID = player1ID then 0 else 1
  (goRound (K * (actualScore1 - expectedScore1)),
   goRound (K * (actualScore2 - expectedScore2)))

/-- `utils.CalculateTeamEloChange`: one-sided ELO update of a single player
against the opposing team's average rating. -/
noncomputable def CalculateTeamEloChange (playerElo opponentTeamAvgElo : ℝ)
    (isWinner : Bool) : ℝ :=
  let K : ℝ := 32
  let expectedScore : ℝ :=
    1 / (1 + (10 : ℝ) ^ ((opponentTeamAvgElo - playerElo) / 400))
  let actualScore : ℝ := if isWinner then 1 else 0
  goRound (K * (actualScore - expectedScore))

/-- `utils.CalculateTeamAverageElo`. -/
noncomputable def CalculateTeamAverageElo (player1Elo player2Elo : ℝ) : ℝ :=
  (player1Elo + player2Elo) / 2

/-! ## Query helpers (gorm `First`/`Find`/`Save` with the soft-delete scope) -/

/-- `tx.First(&match, matchID)`: soft-deleted rows are excluded by gorm. -/
def findMatch (s : DB) (matchID : Nat) : Option GameMatch :=
  s.matchRows.find? (fun m => !m.deleted && m.id == matchID)

/-- `tx.First(&player, playerID)`. -/
def findPlayer (s : DB) (playerID : Nat) : Option Player :=
  s.players.find? (fun p => p.id == playerID)

/-- `tx.First(&team, teamID)`. -/
def findTeam (s : DB) (teamID : Nat) : Option Team :=
  s.teams.find? (fun t => t.id == teamID)

/-- `tx.First(&teamMatch, matchID)`. -/
def findTeamMatch (s : DB) (matchID : Nat) : Option TeamMatch :=
  s.teamMatches.find? (fun m => !m.deleted && m.id == matchID)

/-- `tx.Save(&match)`: write the row back under its primary key. -/
def saveMatch (s : DB) (m : GameMatch) : DB :=
  { s with matchRows := s.matchRows.map (fun x => if x.id = m.id then m else x) }

/-- `tx.Save(&teamMatch)`. -/
def saveTeamMatch (s : DB) (m : TeamMatch) : DB :=
  { s with teamMatches := s.teamMatches.map (fun x => if x.id = m.id then m else x) }

/-- An `UPDATE players SET ...` applied row-wise. -/
def mapPlayers (s : DB) (f : Player → Player) : DB :=
  { s with players := s.players.map f }

/-! ## MatchService (`packages/core/services/stats_service.go`) -/

/-- `MatchService.updatePlayerStatsInTransaction` (stats_service.go:455):
apply the two rating deltas, bump `total_matches` for both players, bump the
winner's `wins` and the loser's `losses`. -/
noncomputable def updatePlayerStatsInTransaction (s : DB)
    (player1ID player2ID winnerID : Nat) (player1Change player2Change : ℝ) : DB :=
  let s1 := mapPlayers s (fun p =>
    if p.id = player1ID then { p with eloRating := p.eloRating + player1Change } else p)
  let s2 := mapPlayers s1 (fun p =>
    if p.id = player2ID then { p with eloRating := p.eloRating + player2Change } else p)
  let s3 := mapPlayers s2 (fun p =>
    if p.id = player1ID ∨ p.id = player2ID then
      { p with totalMatches := p.totalMatches + 1 } else p)
  let s4 := mapPlayers s3 (fun p =>
    if p.id = winnerID then { p with wins := p.wins + 1 } else p)
  let loserID := if winnerID = player1ID then player2ID else player1ID
  mapPlayers s4 (fun p =>
    if p.id = loserID then { p with losses := p.losses + 1 } else p)

/-- `MatchService.UpdateMatchStatus` (stats_service.go:334): within one
transaction, load the match, require `pending`, optionally override the
winner (validated against the two players), optionally set the status
(stamping `confirmedAt = now` on `confirmed`), save, and on `confirmed`
compute deltas, write the two EloHistory rows and update player stats. -/
noncomputable def UpdateMatchStatus (s : DB) (now : ℤ) (matchID : Nat)
    (req : UpdateMatchStatusRequest) : Except String DB :=
  match findMatch s matchID with
  | none => .error "match not found"
  | some m0 =>
    if m0.status ≠ "pending" then .error "match is not pending"
    else
      let withWinner : Except String GameMatch :=
        match req.winnerId with
        | some w =>
          if w ≠ m0.player1Id ∧ w ≠ m0.player2Id then
            .error "winner must be either player1 or player2"
          else .ok { m0 with winnerId := w }
        | none => .ok m0
      match withWinner with
      | .error e => .error e
      | .ok m1 =>
        let m2 : GameMatch :=
          match req.status with
          | some st =>
            { m1 with status := st,
                      confirmedAt := if st = "confirmed" then some now else m1.confirmedAt }
          | none => m1
        let s1 := saveMatch s m2
        if m2.status = "confirmed" then
          match findPlayer s1 m2.player1Id, findPlayer s1 m2.player2Id with
          | some player1, some player2 =>
            let changes := CalculateEloChange player1.eloRating player2.eloRating
              m2.winnerId m2.player1Id
            let h1 : EloHistory :=
              { playerId := m2.player1Id, matchId := m2.id,
                eloBefore := player1.eloRating,
                eloAfter := player1.eloRating + changes.1, eloChange := changes.1,
                opponentId := some m2.player2Id, opponentTeamId := none,
                matchType := "solo", createdAt := now }
            let h2 : EloHistory :=
              { playerId := m2.player2Id, matchId := m2.id,
                eloBefore := player2.eloRating,
                eloAfter := player2.eloRating + changes.2, eloChange := changes.2,
                opponentId := some m2.player1Id, opponentTeamId := none,
                matchType := "solo", createdAt := now }
            let s2 := { s1 with histories := s1.histories ++ [h1, h2] }
            .ok (updatePlayerStatsInTransaction s2 m2.player1Id m2.player2Id
                  m2.winnerId changes.1 changes.2)
          | _, _ => .error "record not found"
        else .ok s1

/-- `MatchService.ConfirmMatch`. -/
noncomputable def ConfirmMatch (s : DB) (now : ℤ) (matchID : Nat) : Except String DB :=
  UpdateMatchStatus s now matchID { status := some "confirmed", winnerId := none }

/-- `MatchService.RejectMatch`. -/
noncomputable def RejectMatch (s : DB) (now : ℤ) (matchID : Nat) : Except String DB :=
  UpdateMatchStatus s now matchID { status := some "rejected", winnerId := none }

/-- `MatchService.CancelMatch` (stats_service.go:602): load the match and set
its status to `cancelled` — the source performs no pending check here. -/
def CancelMatch (s : DB) (matchID : Nat) : Except String DB :=
  match findMatch s matchID with
  | none => .error "match not found"
  | some m => .ok (saveMatch s { m with status := "cancelled" })

/-- `MatchService.reversePlayerStatsInTransaction` (stats_service.go:486). -/
def reversePlayerStatsInTransaction (s : DB)
    (player1ID player2ID winnerID : Nat) : DB :=
  let s1 := mapPlayers s (fun p =>
    if p.id = player1ID ∨ p.id = player2ID then
      { p with totalMatches := p.totalMatches - 1 } else p)
  let s2 := mapPlayers s1 (fun p =>
    if p.id = winnerID then { p with wins := p.wins - 1 } else p)
  let loserID := if winnerID = player1ID then player2ID else player1ID
  mapPlayers s2 (fun p =>
    if p.id = loserID then { p with losses := p.losses - 1 } else p)

/-- `ORDER BY confirmed_at ASC` key for the cascade query. -/
def cascadeLE (a b : GameMatch) : Prop :=
  a.confirmedAt.getD 0 ≤ b.confirmedAt.getD 0

instance : DecidableRel cascadeLE := fun a b =>
  inferInstanceAs (Decidable (a.confirmedAt.getD 0 ≤ b.confirmedAt.getD 0))

/-- One iteration of the cascade loop in
`recalculateSubsequentMatchesInTransaction`: delete the match's existing
EloHistory rows, re-read the two players' current ratings, recompute deltas,
write fresh history rows stamped with the original `confirmedAt`, and set
each player's rating to the re-read rating plus the fresh delta. -/
noncomputable def recalcStep (s : DB) (subsequentMatch : GameMatch) :
    Except String DB :=
  let s1 := { s with histories :=
    s.histories.filter (fun h => !(h.matchId == subsequentMatch.id)) }
  match findPlayer s1 subsequentMatch.player1Id,
        findPlayer s1 subsequentMatch.player2Id with
  | some player1, some player2 =>
    let changes := CalculateEloChange player1.eloRating player2.eloRating
      subsequentMatch.winnerId subsequentMatch.player1Id
    let h1 : EloHistory :=
      { playerId := subsequentMatch.player1Id, matchId := subsequentMatch.id,
        eloBefore := player1.eloRating,
        eloAfter := player1.eloRating + changes.1, eloChange := changes.1,
        opponentId := some subsequentMatch.player2Id, opponentTeamId := none,
        matchType := "solo", createdAt := subsequentMatch.confirmedAt.getD 0 }
    let h2 : EloHistory :=
      { playerId := subsequentMatch.player2Id, matchId := subsequentMatch.id,
        eloBefore := player2.eloRating,
        eloAfter := player2.eloRating + changes.2, eloChange := changes.2,
        opponentId := some subsequentMatch.player1Id, opponentTeamId := none,
        matchType := "solo", createdAt := subsequentMatch.confirmedAt.getD 0 }
    let s2 := { s1 with histories := s1.histories ++ [h1, h2] }
    let s3 := mapPlayers s2 (fun p =>
      if p.id = subsequentMatch.player1Id then
        { p with eloRating := player1.eloRating + changes.1 } else p)
    .ok (mapPlayers s3 (fun p =>
      if p.id = subsequentMatch.player2Id then
        { p with eloRating := player2.eloRating + changes.2 } else p))
  | _, _ => .error "record not found"

/-- `MatchService.recalculateSubsequentMatchesInTransaction`
(stats_service.go:508): select every (non-deleted) confirmed match whose
`confirmedAt` is strictly later than the deleted match's, in ascending
`confirmedAt` order, and run the cascade loop over them.  The two player-id
parameters are accepted but, as in the source, unused by the query. -/
noncomputable def recalculateSubsequentMatchesInTransaction (s : DB)
    (player1ID player2ID : Nat) (deletedMatchTime : Option ℤ) :
    Except String DB :=
  match deletedMatchTime with
  | none => .ok s
  | some t =>
    let subsequentMatches :=
      List.insertionSort cascadeLE
        (s.matchRows.filter (fun m => !m.deleted && m.status == "confirmed" &&
          (match m.confirmedAt with
           | some ct => decide (t < ct)
           | none => false)))
    subsequentMatches.foldlM recalcStep s

/-- `MatchService.DeleteMatch` (stats_service.go:626): if the match was
confirmed, reverse each EloHistory delta out of the players' ratings,
reverse the win/loss/total counters, delete the match's history rows and
run the cascade; finally soft-delete the match. -/
noncomputable def DeleteMatch (s : DB) (matchID : Nat) : Except String DB :=
  match findMatch s matchID with
  | none => .error "match not found"
  | some m =>
    let afterReverse : Except String DB :=
      if m.status = "confirmed" then
        let eloHistories := s.histories.filter (fun h => h.matchId == m.id)
        let s1 := eloHistories.foldl (fun st h =>
          mapPlayers st (fun p =>
            if p.id = h.playerId then
              { p with eloRating := p.eloRating - h.eloChange } else p)) s
        let s2 := reversePlayerStatsInTransaction s1 m.player1Id m.player2Id m.winnerId
        let s3 := { s2 with histories :=
          s2.histories.filter (fun h => !(h.matchId == m.id)) }
        recalculateSubsequentMatchesInTransaction s3 m.player1Id m.player2Id m.confirmedAt
      else .ok s
    match afterReverse with
    | .error e => .error e
    | .ok s4 =>
      .ok { s4 with matchRows := s4.matchRows.map (fun x =>
        if x.id = m.id then { x with deleted := true } else x) }

/-! ## The streak-updating variant of the stats update (unnamed/part_002:215)

A second version of `MatchService.updatePlayerStatsInTransaction` in the
repository performs the same five updates and then additionally maintains
the win-streak counters. -/

/-- `MatchService.updatePlayerStatsInTransaction`, streak-updating version
(unnamed/part_002:215): after the rating/total/win/loss updates, re-read the
winner and loser rows, set the winner's `current_win_streak` to its previous
value plus one (also raising `best_win_streak` when the new streak exceeds
it), and reset the loser's `current_win_streak` to zero. -/
noncomputable def updatePlayerStatsInTransactionStreaks (s : DB)
    (player1ID player2ID winnerID : Nat) (player1Change player2Change : ℝ) :
    Except String DB :=
  let s5 := updatePlayerStatsInTransaction s player1ID player2ID winnerID
    player1Change player2Change
  let loserID := if winnerID = player1ID then player2ID else player1ID
  match findPlayer s5 winnerID, findPlayer s5 loserID with
  | some winner, some _ =>
    let newWinnerStreak := winner.currentWinStreak + 1
    let s6 := mapPlayers s5 (fun p =>
      if p.id = winnerID then
        { p with currentWinStreak := newWinnerStreak,
                 bestWinStreak :=
                   if newWinnerStreak > winner.bestWinStreak then newWinnerStreak
                   else p.bestWinStreak }
      else p)
    .ok (mapPlayers s6 (fun p =>
      if p.id = loserID then { p with currentWinStreak := 0 } else p))
  | _, _ => .error "record not found"

/-! ## TeamService / TeamMatchService (unnamed/part_004, unnamed/part_002) -/

/-- gorm's zero value for a missing preloaded `Player` association. -/
def zeroPlayer : Player :=
  { id := 0, eloRating := 0, rank := 0, totalMatches := 0, wins := 0,
    losses := 0, currentWinStreak := 0, bestWinStreak := 0, teamEloRating := 0,
    teamRank := 0, teamTotalMatches := 0, teamWins := 0, teamLosses := 0 }

/-- gorm's zero value for a missing preloaded `Team` association. -/
def zeroTeam : Team :=
  { id := 0, player1Id := 0, player2Id := 0, eloRating := 0, totalMatches := 0,
    wins := 0, losses := 0 }

/-- A team row together with its two preloaded players
(`Preload("Team1.Player1")` etc.). -/
structure LoadedTeam where
  team : Team
  player1 : Player
  player2 : Player

/-- Preload a team and its players; a missing row yields gorm's zero value. -/
def loadTeam (s : DB) (teamID : Nat) : LoadedTeam :=
  let t := (findTeam s teamID).getD zeroTeam
  { team := t,
    player1 := (findPlayer s t.player1Id).getD zeroPlayer,
    player2 := (findPlayer s t.player2Id).getD zeroPlayer }

/-- `TeamService.UpdateTeamStats` (unnamed/part_004:233): re-read the team
row, then set `total_matches`, `elo_rating` and the win or loss counter from
the read snapshot. -/
noncomputable def UpdateTeamStats (s : DB) (teamID : Nat) (won : Bool)
    (eloChange : ℝ) : Except String DB :=
  match findTeam s teamID with
  | none => .error "team not found"
  | some team =>
    .ok { s with teams := s.teams.map (fun t =>
      if t.id = teamID then
        { t with totalMatches := team.totalMatches + 1,
                 eloRating := team.eloRating + eloChange,
                 wins := if won then team.wins + 1 else t.wins,
                 losses := if won then t.losses else team.losses + 1 }
      else t) }

/-- `TeamMatchService.updateTeamEloAndStats` (unnamed/part_002:571): each of
the four players is scored individually against the opposing pair's average
team rating; four EloHistory rows are created; player team-mode aggregates
are set from the preloaded snapshot; each TeamAggregate receives the mean of
its own two players' deltas. -/
noncomputable def updateTeamEloAndStats (s : DB) (t1 t2 : LoadedTeam)
    (m : TeamMatch) (now : ℤ) : Except String DB :=
  let team1AvgElo := CalculateTeamAverageElo t1.player1.teamEloRating t1.player2.teamEloRating
  let team2AvgElo := CalculateTeamAverageElo t2.player1.teamEloRating t2.player2.teamEloRating
  let isTeam1Winner := m.winnerTeamId == m.team1Id
  let team1Player1Change := CalculateTeamEloChange t1.player1.teamEloRating team2AvgElo isTeam1Winner
  let team1Player2Change := CalculateTeamEloChange t1.player2.teamEloRating team2AvgElo isTeam1Winner
  let team2Player1Change := CalculateTeamEloChange t2.player1.teamEloRating team1AvgElo (!isTeam1Winner)
  let team2Player2Change := CalculateTeamEloChange t2.player2.teamEloRating team1AvgElo (!isTeam1Winner)
  let team1EloChange := (team1Player1Change + team1Player2Change) / 2
  let team2EloChange := (team2Player1Change + team2Player2Change) / 2
  let eloHistories : List EloHistory :=
    [ { playerId := t1.player1.id, matchId := m.id,
        eloBefore := t1.player1.teamEloRating,
        eloAfter := t1.player1.teamEloRating + team1Player1Change,
        eloChange := team1Player1Change, opponentId := none,
        opponentTeamId := some m.team2Id, matchType := "team", createdAt := now },
      { playerId := t1.player2.id, matchId := m.id,
        eloBefore := t1.player2.teamEloRating,
        eloAfter := t1.player2.teamEloRating + team1Player2Change,
        eloChange := team1Player2Change, opponentId := none,
        opponentTeamId := some m.team2Id, matchType := "team", createdAt := now },
      { playerId := t2.player1.id, matchId := m.id,
        eloBefore := t2.player1.teamEloRating,
        eloAfter := t2.player1.teamEloRating + team2Player1Change,
        eloChange := team2Player1Change, opponentId := none,
        opponentTeamId := some m.team1Id, matchType := "team", createdAt := now },
      { playerId := t2.player2.id, matchId := m.id,
        eloBefore := t2.player2.teamEloRating,
        eloAfter := t2.player2.teamEloRating + team2Player2Change,
        eloChange := team2Player2Change, opponentId := none,
        opponentTeamId := some m.team1Id, matchType := "team", createdAt := now } ]
  let s1 := { s with histories := s.histories ++ eloHistories }
  let s2 := mapPlayers s1 (fun p =>
    if p.id = t1.player1.id then
      { p with teamEloRating := t1.player1.teamEloRating + team1Player1Change,
               teamTotalMatches := t1.player1.teamTotalMatches + 1,
               teamWins := if isTeam1Winner then t1.player1.teamWins + 1 else p.teamWins,
               teamLosses := if isTeam1Winner then p.teamLosses else t1.player1.teamLosses + 1 }
    else p)
  let s3 := mapPlayers s2 (fun p =>
    if p.id = t1.player2.id then
      { p with teamEloRating := t1.player2.teamEloRating + team1Player2Change,
               teamTotalMatches := t1.player2.teamTotalMatches + 1,
               teamWins := if isTeam1Winner then t1.player2.teamWins + 1 else p.teamWins,
               teamLosses := if isTeam1Winner then p.teamLosses else t1.player2.teamLosses + 1 }
    else p)
  let s4 := mapPlayers s3 (fun p =>
    if p.id = t2.player1.id then
      { p with teamEloRating := t2.player1.teamEloRating + team2Player1Change,
               teamTotalMatches := t2.player1.teamTotalMatches + 1,
               teamWins := if isTeam1Winner then p.teamWins else t2.player1.teamWins + 1,
               teamLosses := if isTeam1Winner then t2.player1.teamLosses + 1 else p.teamLosses }
    else p)
  let s5 := mapPlayers s4 (fun p =>
    if p.id = t2.player2.id then
      { p with teamEloRating := t2.player2.teamEloRating + team2Player2Change,
               teamTotalMatches := t2.player2.teamTotalMatches + 1,
               teamWins := if isTeam1Winner then p.teamWins else t2.player2.teamWins + 1,
               teamLosses := if isTeam1Winner then t2.player2.teamLosses + 1 else p.teamLosses }
    else p)
  match UpdateTeamStats s5 m.team1Id isTeam1Winner team1EloChange with
  | .error e => .error e
  | .ok s6 => UpdateTeamStats s6 m.team2Id (!isTeam1Winner) team2EloChange

/-! ## Rank recomputation

`PlayerService.RecalculateAllRanks` (handlers/match_handler.go:837) and
`TeamMatchService.recalculateTeamRanks` (unnamed/part_002:690) are
line-for-line identical up to the rating/rank column pair they touch
(`elo_rating`/`rank` versus `team_elo_rating`/`team_rank`), so they are
embedded through one core parameterised by that column pair. -/

/-- The `ORDER BY <rating> DESC, id ASC` relation used by both rank
recomputations. -/
def rankRel (f : Player → ℝ) (p q : Player) : Prop :=
  f q < f p ∨ (f p = f q ∧ p.id ≤ q.id)

noncomputable instance (f : Player → ℝ) : DecidableRel (rankRel f) := fun _ _ =>
  Classical.propDecidable _

/-- The rank-assignment walk shared by both recomputations: `currentRank`
starts at 1 and jumps to `i + 1` whenever the rating differs from the
previous row's; each visited player row is updated with the current rank. -/
noncomputable def applyRanksAux (f : Player → ℝ) (setRank : Player → Nat → Player) :
    DB → Nat → ℝ → Nat → List Player → DB
  | s, _, _, _, [] => s
  | s, i, previousElo, currentRank, p :: rest =>
    let newRank := if 0 < i ∧ f p ≠ previousElo then i + 1 else currentRank
    applyRanksAux f setRank
      (mapPlayers s (fun q => if q.id = p.id then setRank q newRank else q))
      (i + 1) (f p) newRank rest

/-- The list of ranks the walk assigns to a (sorted) list of players, one
entry per position. -/
noncomputable def ranksFrom (f : Player → ℝ) :
    Nat → ℝ → Nat → List Player → List Nat
  | _, _, _, [] => []
  | i, previousElo, currentRank, p :: rest =>
    let newRank := if 0 < i ∧ f p ≠ previousElo then i + 1 else currentRank
    newRank :: ranksFrom f (i + 1) (f p) newRank rest

/-- Ranks assigned to the positions of `l` by the recomputation walk. -/
noncomputable def ranksOf (f : Player → ℝ) (l : List Player) : List Nat :=
  ranksFrom f 0 0 1 l

/-- `PlayerService.RecalculateAllRanks` (handlers/match_handler.go:837). -/
noncomputable def RecalculateAllRanks (s : DB) : DB :=
  applyRanksAux Player.eloRating (fun p r => { p with rank := r }) s 0 0 1
    (List.insertionSort (rankRel Player.eloRating) s.players)

/-- `TeamMatchService.recalculateTeamRanks` (unnamed/part_002:690). -/
noncomputable def recalculateTeamRanks (s : DB) : DB :=
  applyRanksAux Player.teamEloRating (fun p r => { p with teamRank := r }) s 0 0 1
    (List.insertionSort (rankRel Player.teamEloRating) s.players)

/-- `TeamMatchService.UpdateTeamMatchStatus` (unnamed/part_002:490): load the
team match with its preloaded teams/players, require `pending`, optionally
override the winner team, optionally set the status (stamping `confirmedAt`
on `confirmed`), save, on `confirmed` run `updateTeamEloAndStats` in the
transaction, and after commit recompute team ranks (errors ignored). -/
noncomputable def UpdateTeamMatchStatus (s : DB) (now : ℤ) (matchID : Nat)
    (req : UpdateTeamMatchStatusRequest) : Except String DB :=
  match findTeamMatch s matchID with
  | none => .error "team match not found"
  | some m0 =>
    if m0.status ≠ "pending" then .error "team match is not pending"
    else
      let t1 := loadTeam s m0.team1Id
      let t2 := loadTeam s m0.team2Id
      let withWinner : Except String TeamMatch :=
        match req.winnerTeamId with
        | some w =>
          if w ≠ m0.team1Id ∧ w ≠ m0.team2Id then
            .error "winner must be either team1 or team2"
          else .ok { m0 with winnerTeamId := w }
        | none => .ok m0
      match withWinner with
      | .error e => .error e
      | .ok m1 =>
        let m2 : TeamMatch :=
          match req.status with
          | some st =>
            { m1 with status := st,
                      confirmedAt := if st = "confirmed" then some now else m1.confirmedAt }
          | none => m1
        let s1 := saveTeamMatch s m2
        let afterStats : Except String DB :=
          if m2.status = "confirmed" then updateTeamEloAndStats s1 t1 t2 m2 now
          else .ok s1
        match afterStats with
        | .error e => .error e
        | .ok s2 =>
          .ok (if m2.status = "confirmed" then recalculateTeamRanks s2 else s2)

/-- `TeamMatchService.ConfirmTeamMatch`. -/
noncomputable def ConfirmTeamMatch (s : DB) (now : ℤ) (matchID : Nat) :
    Except String DB :=
  UpdateTeamMatchStatus s now matchID { status := some "confirmed", winnerTeamId := none }

/-! ## AutoValidationService (unnamed/part_003) -/

/-- The expired-pending solo matches: `status = 'pending' AND
created_at < now - 24h` (time in hours). -/
def expiredSoloMatches (s : DB) (now : ℤ) : List GameMatch :=
  s.matchRows.filter (fun m => !m.deleted && m.status == "pending" &&
    decide (m.createdAt < now - 24))

/-- The expired-pending team matches. -/
def expiredTeamMatchesOf (s : DB) (now : ℤ) : List TeamMatch :=
  s.teamMatches.filter (fun m => !m.deleted && m.status == "pending" &&
    decide (m.createdAt < now - 24))

/-- One sweeper iteration over a solo match: confirm it, and on error log
and keep the previous state (`continue`). -/
noncomputable def autoConfirmStep (now : ℤ) (st : DB) (m : GameMatch) : DB :=
  match ConfirmMatch st now m.id with
  | .ok st2 => st2
  | .error _ => st

/-- One sweeper iteration over a team match. -/
noncomputable def autoConfirmTeamStep (now : ℤ) (st : DB) (m : TeamMatch) : DB :=
  match ConfirmTeamMatch st now m.id with
  | .ok st2 => st2
  | .error _ => st

/-- `AutoValidationService.ValidateExpiredMatches` (unnamed/part_003:26):
select the expired pending solo and team matches, then confirm each in
discovery order, skipping (only) the ones whose confirmation fails. -/
noncomputable def ValidateExpiredMatches (s : DB) (now : ℤ) : DB :=
  let expiredMatches := expiredSoloMatches s now
  let expiredTeamMatches := expiredTeamMatchesOf s now
  let s1 := expiredMatches.foldl (autoConfirmStep now) s
  expiredTeamMatches.foldl (autoConfirmTeamStep now) s1

/-! ## Numeric evaluation lemmas for the rating functions -/

lemma goRound_of_not_neg (x : ℝ) (n : ℤ) (hx : ¬ x < 0)
    (h1 : (n : ℝ) ≤ x + 1/2) (h2 : x + 1/2 < n + 1) : goRound x = n := by
  unfold goRound
  rw [if_neg hx]
  have : ⌊x + 1/2⌋ = n := Int.floor_eq_iff.mpr ⟨h1, by linarith⟩
  rw [this]

lemma goRound_of_neg (x : ℝ) (n : ℤ) (hx : x < 0)
    (h1 : (n : ℝ) ≤ -x + 1/2) (h2 : -x + 1/2 < n + 1) : goRound x = -n := by
  unfold goRound
  rw [if_pos hx]
  have : ⌊-x + 1/2⌋ = n := Int.floor_eq_iff.mpr ⟨h1, by linarith⟩
  rw [this]

/-- With equal ratings the expected scores are exactly `1/2`, so the winner
gains `32 * (1 - 1/2) = 16` and the loser loses `16`. -/
lemma calculateEloChange_equal_ratings_winner1 (r : ℝ) (w p : Nat) (h : w = p) :
    CalculateEloChange r r w p = (16, -16) := by
  unfold CalculateEloChange
  rw [if_pos h, if_pos h]
  have hz : (r - r) / 400 = 0 := by ring
  rw [hz, Real.rpow_zero]
  norm_num
  constructor
  · have := goRound_of_not_neg 16 16 (by norm_num) (by norm_num) (by norm_num)
    simpa using this
  · have := goRound_of_neg (-16) 16 (by norm_num) (by norm_num) (by norm_num)
    simpa using this

/-- One-sided variant of the equal-ratings evaluation, for the team delta. -/
lemma calculateTeamEloChange_equal_ratings (r : ℝ) (isWinner : Bool) :
    CalculateTeamEloChange r r isWinner = if isWinner then 16 else -16 := by
  unfold CalculateTeamEloChange
  have hz : (r - r) / 400 = 0 := by ring
  rw [hz, Real.rpow_zero]
  cases isWinner with
  | true =>
    norm_num
    have := goRound_of_not_neg 16 16 (by norm_num) (by norm_num) (by norm_num)
    simpa using this
  | false =>
    norm_num
    have := goRound_of_neg (-16) 16 (by norm_num) (by norm_num) (by norm_num)
    simpa using this

lemma rpow_ten_pos : (0:ℝ) < (10:ℝ) ^ ((2:ℝ)/25) :=
  Real.rpow_pos_of_pos (by norm_num) _

lemma rpow_ten_pow25 : ((10:ℝ) ^ ((2:ℝ)/25)) ^ (25:ℕ) = 100 := by
  rw [← Real.rpow_natCast ((10:ℝ) ^ ((2:ℝ)/25)) 25,
    ← Real.rpow_mul (by norm_num : (0:ℝ) ≤ 10)]
  rw [show (2:ℝ) / 25 * ((25:ℕ):ℝ) = ((2:ℕ):ℝ) by norm_num, Real.rpow_natCast]
  norm_num

lemma rpow_ten_lt : (10:ℝ) ^ ((2:ℝ)/25) < 241/200 := by
  apply lt_of_pow_lt_pow_left 25 (by norm_num : (0:ℝ) ≤ 241/200)
  rw [rpow_ten_pow25]
  norm_num

lemma rpow_ten_gt : (6:ℝ)/5 < (10:ℝ) ^ ((2:ℝ)/25) := by
  apply lt_of_pow_lt_pow_left 25 (le_of_lt rpow_ten_pos)
  rw [rpow_ten_pow25]
  norm_num

/-- Evaluation of the delta function at ratings 1232 versus 1200 (the pair
arising when the cascade replays a match on top of its own stale delta):
the expected score of the higher-rated winner is strictly between 6/11 and
241/441, so both rounded deltas have magnitude 15. -/
lemma calculateEloChange_1232_1200 (w p : Nat) (h : w = p) :
    CalculateEloChange 1232 1200 w p = (15, -15) := by
  unfold CalculateEloChange
  rw [if_pos h, if_pos h]
  have hexp : ((1200:ℝ) - 1232) / 400 = -((2:ℝ)/25) := by norm_num
  rw [hexp, Real.rpow_neg (by norm_num : (0:ℝ) ≤ 10)]
  have hupos := rpow_ten_pos
  have hu1 := rpow_ten_gt
  have hu2 := rpow_ten_lt
  set u := (10:ℝ) ^ ((2:ℝ)/25) with hu
  have ht1 : (200:ℝ)/241 < u⁻¹ := by
    rw [show (200:ℝ)/241 = ((241:ℝ)/200)⁻¹ by norm_num]
    exact inv_lt_inv_of_lt hupos hu2
  have ht2 : u⁻¹ < 5/6 := by
    rw [show (5:ℝ)/6 = ((6:ℝ)/5)⁻¹ by norm_num]
    exact inv_lt_inv_of_lt (by norm_num) hu1
  have h1t : (0:ℝ) < 1 + u⁻¹ := by linarith
  have hE1 : 1 / (1 + u⁻¹) < 241/441 := by
    rw [div_lt_div_iff h1t (by norm_num)]
    linarith
  have hE2 : (6:ℝ)/11 < 1 / (1 + u⁻¹) := by
    rw [div_lt_div_iff (by norm_num) h1t]
    linarith
  rw [Prod.mk.injEq]
  constructor
  · have := goRound_of_not_neg (32 * (1 - 1 / (1 + u⁻¹))) 15
      (by push_neg; nlinarith) (by nlinarith) (by nlinarith)
    simpa using this
  · have := goRound_of_neg (32 * (0 - (1 - 1 / (1 + u⁻¹)))) 15
      (by nlinarith) (by nlinarith) (by nlinarith)
    simpa using this

/-! ## Structural lemmas about the store operations -/

@[simp] lemma saveMatch_players (s : DB) (m : GameMatch) :
    (saveMatch s m).players = s.players := rfl

@[simp] lemma saveMatch_histories (s : DB) (m : GameMatch) :
    (saveMatch s m).histories = s.histories := rfl

@[simp] lemma mapPlayers_matchRows (s : DB) (f : Player → Player) :
    (mapPlayers s f).matchRows = s.matchRows := rfl

@[simp] lemma mapPlayers_histories (s : DB) (f : Player → Player) :
    (mapPlayers s f).histories = s.histories := rfl

@[simp] lemma mapPlayers_players (s : DB) (f : Player → Player) :
    (mapPlayers s f).players = s.players.map f := rfl

@[simp] lemma findPlayer_saveMatch (s : DB) (m : GameMatch) (pid : Nat) :
    findPlayer (saveMatch s m) pid = findPlayer s pid := rfl

@[simp] lemma updatePlayerStats_histories (s : DB) (a b w : Nat) (x y : ℝ) :
    (updatePlayerStatsInTransaction s a b w x y).histories = s.histories := rfl

@[simp] lemma updatePlayerStats_matchRows (s : DB) (a b w : Nat) (x y : ℝ) :
    (updatePlayerStatsInTransaction s a b w x y).matchRows = s.matchRows := rfl

@[simp] lemma reversePlayerStats_histories (s : DB) (a b w : Nat) :
    (reversePlayerStatsInTransaction s a b w).histories = s.histories := rfl

@[simp] lemma reversePlayerStats_matchRows (s : DB) (a b w : Nat) :
    (reversePlayerStatsInTransaction s a b w).matchRows = s.matchRows := rfl

lemma find?_eq_some_pred {α : Type} (l : List α) (p : α → Bool) (a : α)
    (h : l.find? p = some a) : p a = true :=
  List.find?_some h

/-- After writing back an updated row under the key that previously located
`mOld`, the same lookup locates the updated row. -/
lemma find?_map_save (l : List GameMatch) (matchID : Nat) (mOld mNew : GameMatch)
    (hm : l.find? (fun m => !m.deleted && m.id == matchID) = some mOld)
    (hid : mNew.id = matchID) (hdel : mNew.deleted = false) :
    (l.map (fun x => if x.id = mNew.id then mNew else x)).find?
      (fun m => !m.deleted && m.id == matchID) = some mNew := by
  have hprednew : (!mNew.deleted && mNew.id == matchID) = true := by
    simp [hid, hdel]
  induction l with
  | nil => simp at hm
  | cons a l ih =>
    rw [List.map_cons]
    by_cases ha : (!a.deleted && a.id == matchID) = true
    · have haid : a.id = matchID := by
        simp only [Bool.and_eq_true, beq_iff_eq] at ha
        exact ha.2
      rw [if_pos (haid.trans hid.symm)]
      exact List.find?_cons_of_pos _ hprednew
    · have hm2 : l.find? (fun m => !m.deleted && m.id == matchID) = some mOld := by
        rwa [@List.find?_cons_of_neg GameMatch
          (fun m => !m.deleted && m.id == matchID) a l ha] at hm
      by_cases hb : a.id = mNew.id
      · rw [if_pos hb]
        exact List.find?_cons_of_pos _ hprednew
      · rw [if_neg hb]
        exact (@List.find?_cons_of_neg GameMatch
          (fun m => !m.deleted && m.id == matchID) a _ ha).trans (ih hm2)

lemma findMatch_saveMatch (s : DB) (matchID : Nat) (mOld mNew : GameMatch)
    (hm : findMatch s matchID = some mOld)
    (hid : mNew.id = matchID) (hdel : mNew.deleted = false) :
    findMatch (saveMatch s mNew) matchID = some mNew :=
  find?_map_save s.matchRows matchID mOld mNew hm hid hdel

lemma findMatch_props (s : DB) (matchID : Nat) (m : GameMatch)
    (hm : findMatch s matchID = some m) : m.id = matchID ∧ m.deleted = false := by
  have := find?_eq_some_pred _ _ _ hm
  simp only [Bool.and_eq_true, beq_iff_eq, Bool.not_eq_eq_eq_not, Bool.not_true] at this
  exact ⟨this.2, by simpa using this.1⟩

/-- The cascade is a no-op when nothing in the store is a confirmed,
not-deleted match with a strictly later confirmation time. -/
lemma recalc_subsequent_empty (s : DB) (player1ID player2ID : Nat) (t : ℤ)
    (hnone : ∀ m ∈ s.matchRows, m.deleted = false → m.status = "confirmed" →
      ∀ ct, m.confirmedAt = some ct → ct ≤ t) :
    recalculateSubsequentMatchesInTransaction s player1ID player2ID (some t) = .ok s := by
  have hfilter : s.matchRows.filter (fun m => !m.deleted && m.status == "confirmed" &&
      (match m.confirmedAt with
       | some ct => decide (t < ct)
       | none => false)) = [] := by
    apply List.filter_eq_nil_iff.mpr
    intro m hmem
    intro hcontra
    simp only [Bool.and_eq_true, Bool.not_eq_eq_eq_not, Bool.not_true, beq_iff_eq] at hcontra
    obtain ⟨⟨hdel, hst⟩, hcf⟩ := hcontra
    match hct : m.confirmedAt with
    | none => rw [hct] at hcf; simp at hcf
    | some ct =>
      rw [hct] at hcf
      simp only [decide_eq_true_eq] at hcf
      exact absurd hcf (not_lt.mpr (hnone m hmem hdel hst ct hct))
  show List.foldlM recalcStep s (List.insertionSort cascadeLE
    (s.matchRows.filter (fun m => !m.deleted && m.status == "confirmed" &&
      (match m.confirmedAt with
       | some ct => decide (t < ct)
       | none => false)))) = .ok s
  rw [hfilter]
  rfl

/-! ## The player-stats round trip

Each conditional row update of `updatePlayerStatsInTransaction` and
`reversePlayerStatsInTransaction` is first normalised into an unconditional
record update whose delta is guarded by an `if`, after which the apply and
reverse deltas cancel field by field. -/

lemma updElo_add (cond : Player → Prop) [DecidablePred cond] (c : ℝ) :
    (fun p : Player => if cond p then { p with eloRating := p.eloRating + c } else p) =
    (fun p : Player => { p with eloRating := p.eloRating + if cond p then c else 0 }) := by
  funext p
  by_cases h : cond p <;> simp [h]

lemma updElo_sub (cond : Player → Prop) [DecidablePred cond] (c : ℝ) :
    (fun p : Player => if cond p then { p with eloRating := p.eloRating - c } else p) =
    (fun p : Player => { p with eloRating := p.eloRating - if cond p then c else 0 }) := by
  funext p
  by_cases h : cond p <;> simp [h]

lemma updTotal_add (cond : Player → Prop) [DecidablePred cond] :
    (fun p : Player => if cond p then { p with totalMatches := p.totalMatches + 1 } else p) =
    (fun p : Player => { p with totalMatches := p.totalMatches + if cond p then 1 else 0 }) := by
  funext p
  by_cases h : cond p <;> simp [h]

lemma updTotal_sub (cond : Player → Prop) [DecidablePred cond] :
    (fun p : Player => if cond p then { p with totalMatches := p.totalMatches - 1 } else p) =
    (fun p : Player => { p with totalMatches := p.totalMatches - if cond p then 1 else 0 }) := by
  funext p
  by_cases h : cond p <;> simp [h]

lemma updWins_add (cond : Player → Prop) [DecidablePred cond] :
    (fun p : Player => if cond p then { p with wins := p.wins + 1 } else p) =
    (fun p : Player => { p with wins := p.wins + if cond p then 1 else 0 }) := by
  funext p
  by_cases h : cond p <;> simp [h]

lemma updWins_sub (cond : Player → Prop) [DecidablePred cond] :
    (fun p : Player => if cond p then { p with wins := p.wins - 1 } else p) =
    (fun p : Player => { p with wins := p.wins - if cond p then 1 else 0 }) := by
  funext p
  by_cases h : cond p <;> simp [h]

lemma updLosses_add (cond : Player → Prop) [DecidablePred cond] :
    (fun p : Player => if cond p then { p with losses := p.losses + 1 } else p) =
    (fun p : Player => { p with losses := p.losses + if cond p then 1 else 0 }) := by
  funext p
  by_cases h : cond p <;> simp [h]

lemma updLosses_sub (cond : Player → Prop) [DecidablePred cond] :
    (fun p : Player => if cond p then { p with losses := p.losses - 1 } else p) =
    (fun p : Player => { p with losses := p.losses - if cond p then 1 else 0 }) := by
  funext p
  by_cases h : cond p <;> simp [h]

lemma stats_roundtrip (s0 : DB) (p1id p2id w : Nat) (c1 c2 : ℝ) :
    ((reversePlayerStatsInTransaction
        (mapPlayers
          (mapPlayers (updatePlayerStatsInTransaction s0 p1id p2id w c1 c2)
            (fun p => if p.id = p1id then { p with eloRating := p.eloRating - c1 } else p))
          (fun p => if p.id = p2id then { p with eloRating := p.eloRating - c2 } else p))
        p1id p2id w).players).map
      (fun p => (p.eloRating, p.totalMatches, p.wins, p.losses)) =
    s0.players.map (fun p => (p.eloRating, p.totalMatches, p.wins, p.losses)) := by
  unfold updatePlayerStatsInTransaction reversePlayerStatsInTransaction
  simp only [updElo_add, updElo_sub, updTotal_add, updTotal_sub, updWins_add,
    updWins_sub, updLosses_add, updLosses_sub, mapPlayers_players, List.map_map]
  apply List.map_congr_left
  intro p hpmem
  dsimp only [Function.comp]
  simp only [Prod.mk.injEq]
  refine ⟨?_, ?_, ?_, ?_⟩ <;> ring

/-! ## C6: the equal-ratings scenario -/

/-- C6: for two players both rated 1200 with player 1 the declared winner,
`CalculateEloChange` returns `+16` for player 1 and `-16` for player 2, so
the post-match ratings are `1216` and `1184`. -/
theorem c6_equal_ratings_scenario :
    CalculateEloChange 1200 1200 1 1 = (16, -16) ∧
    (1200 : ℝ) + (CalculateEloChange 1200 1200 1 1).1 = 1216 ∧
    (1200 : ℝ) + (CalculateEloChange 1200 1200 1 1).2 = 1184 := by
  have h := calculateEloChange_equal_ratings_winner1 1200 1 1 rfl
  refine ⟨h, ?_, ?_⟩ <;> rw [h] <;> norm_num

/-! ## C2: the not-pending guard (corrected) -/

/-- A store holding a single already confirmed match. -/
def c2DB : DB :=
  { players := [], matchRows := [⟨1, 1, 2, 1, "confirmed", 0, some 5, false⟩],
    teamMatches := [], teams := [], histories := [] }

/-- C2 counterexample: the claim states that cancel on a non-pending match
fails with an invalid-transition error and leaves the status unchanged, but
`CancelMatch` performs no pending check — on an already confirmed match it
succeeds and overwrites the status with `cancelled`. -/
theorem c2_counterexample_cancel_confirmed :
    CancelMatch c2DB 1 =
      .ok { players := [], matchRows := [⟨1, 1, 2, 1, "cancelled", 0, some 5, false⟩],
            teamMatches := [], teams := [], histories := [] } := by
  rfl

/-- C2 (amended): for a match whose status is not `pending`, `confirm` and
`reject` — both running through `UpdateMatchStatus`, including a second
confirm of an already confirmed match — fail with the invalid-transition
error `"match is not pending"` and, the transaction aborting, produce no new
state; `cancel`, by contrast, performs no status check: it succeeds,
rewriting only the match's status to `cancelled` and leaving every player
row and every EloHistory row unchanged. -/
theorem c2_not_pending_guard (s : DB) (now : ℤ) (matchID : Nat)
    (req : UpdateMatchStatusRequest) (m : GameMatch)
    (hm : findMatch s matchID = some m) (hnp : m.status ≠ "pending") :
    UpdateMatchStatus s now matchID req = .error "match is not pending" ∧
    ConfirmMatch s now matchID = .error "match is not pending" ∧
    CancelMatch s matchID = .ok (saveMatch s { m with status := "cancelled" }) ∧
    (saveMatch s { m with status := "cancelled" }).players = s.players ∧
    (saveMatch s { m with status := "cancelled" }).histories = s.histories := by
  have hupd : ∀ r, UpdateMatchStatus s now matchID r = .error "match is not pending" := by
    intro r
    unfold UpdateMatchStatus
    rw [hm]
    simp [hnp]
  refine ⟨hupd req, hupd _, ?_, rfl, rfl⟩
  unfold CancelMatch
  rw [hm]

/-- Witness for C2: a second confirm of the already confirmed match in
`c2DB` fails with the invalid-transition error. -/
theorem c2_witness :
    ConfirmMatch c2DB 7 1 = .error "match is not pending" :=
  (c2_not_pending_guard c2DB 7 1 { status := some "confirmed", winnerId := none }
    ⟨1, 1, 2, 1, "confirmed", 0, some 5, false⟩ rfl (by decide)).2.1

/-! ## C10: a winner-only update leaves a pending match pending -/

/-- C10: on a pending solo match, `UpdateMatchStatus` with only a winner
override (the new winner being one of the two players) succeeds, overwrites
the stored winner, and leaves the status `pending`, the `confirmedAt`
timestamp untouched, the EloHistory table unchanged and every player row
unchanged. -/
theorem c10_winner_only_update (s : DB) (now : ℤ) (matchID : Nat) (w : Nat)
    (m : GameMatch) (hm : findMatch s matchID = some m)
    (hpend : m.status = "pending") (hw : w = m.player1Id ∨ w = m.player2Id) :
    UpdateMatchStatus s now matchID { status := none, winnerId := some w } =
      .ok (saveMatch s { m with winnerId := w }) ∧
    (saveMatch s { m with winnerId := w }).players = s.players ∧
    (saveMatch s { m with winnerId := w }).histories = s.histories ∧
    ({ m with winnerId := w } : GameMatch).status = "pending" ∧
    ({ m with winnerId := w } : GameMatch).confirmedAt = m.confirmedAt := by
  refine ⟨?_, rfl, rfl, hpend, rfl⟩
  unfold UpdateMatchStatus
  rw [hm]
  have hwin : ¬(w ≠ m.player1Id ∧ w ≠ m.player2Id) := by tauto
  simp [hpend, hwin]

/-- A store with one pending match between two players, used as the concrete
input of several witnesses. -/
def pendingPlayer (pid : Nat) : Player :=
  { id := pid, eloRating := 1200, rank := 1, totalMatches := 0, wins := 0,
    losses := 0, currentWinStreak := 0, bestWinStreak := 0,
    teamEloRating := 1200, teamRank := 1, teamTotalMatches := 0,
    teamWins := 0, teamLosses := 0 }

def pendingDB : DB :=
  { players := [pendingPlayer 1, pendingPlayer 2],
    matchRows := [⟨1, 1, 2, 1, "pending", 0, none, false⟩],
    teamMatches := [], teams := [], histories := [] }

/-- Witness for C10: overriding the winner of the pending match in
`pendingDB` to player 2 keeps it pending. -/
theorem c10_witness :
    UpdateMatchStatus pendingDB 7 1 { status := none, winnerId := some 2 } =
      .ok (saveMatch pendingDB
        { id := 1, player1Id := 1, player2Id := 2, winnerId := 2,
          status := "pending", createdAt := 0, confirmedAt := none,
          deleted := false }) :=
  (c10_winner_only_update pendingDB 7 1 2
    ⟨1, 1, 2, 1, "pending", 0, none, false⟩ rfl rfl (Or.inr rfl)).1

/-! ## C3: the apply/reverse round trip -/

set_option maxHeartbeats 2000000 in
/-- C3: confirming a pending solo match and then immediately deleting it,
with no other confirmed match dated after the confirmation instant, returns
every player's rating, `totalMatches`, `wins` and `losses` to their
pre-confirmation values exactly. -/
theorem c3_apply_reverse_roundtrip (s : DB) (now : ℤ) (matchID : Nat)
    (m : GameMatch) (p1 p2 : Player)
    (hm : findMatch s matchID = some m)
    (hpend : m.status = "pending")
    (hp1 : findPlayer s m.player1Id = some p1)
    (hp2 : findPlayer s m.player2Id = some p2)
    (hnh : ∀ h ∈ s.histories, ¬ h.matchId = m.id)
    (hlater : ∀ m2 ∈ s.matchRows, m2.status = "confirmed" →
      ∀ t, m2.confirmedAt = some t → t ≤ now) :
    ∃ s1 : DB, ConfirmMatch s now matchID = .ok s1 ∧
      Except.map
          (fun s2 => s2.players.map (fun p => (p.eloRating, p.totalMatches, p.wins, p.losses)))
          (DeleteMatch s1 matchID) =
        .ok (s.players.map (fun p => (p.eloRating, p.totalMatches, p.wins, p.losses))) := by
  obtain ⟨hmid, hmdel⟩ := findMatch_props s matchID m hm
  have hconf : ConfirmMatch s now matchID = .ok (updatePlayerStatsInTransaction { saveMatch s ({ m with status := "confirmed", confirmedAt := some now }) with histories := s.histories ++ [{ playerId := m.player1Id, matchId := m.id, eloBefore := p1.eloRating, eloAfter := p1.eloRating + (CalculateEloChange p1.eloRating p2.eloRating m.winnerId m.player1Id).1, eloChange := (CalculateEloChange p1.eloRating p2.eloRating m.winnerId m.player1Id).1, opponentId := some m.player2Id, opponentTeamId := none, matchType := "solo", createdAt := now }, { playerId := m.player2Id, matchId := m.id, eloBefore := p2.eloRating, eloAfter := p2.eloRating + (CalculateEloChange p1.eloRating p2.eloRating m.winnerId m.player1Id).2, eloChange := (CalculateEloChange p1.eloRating p2.eloRating m.winnerId m.player1Id).2, opponentId := some m.player1Id, opponentTeamId := none, matchType := "solo", createdAt := now }] } m.player1Id m.player2Id m.winnerId ((CalculateEloChange p1.eloRating p2.eloRating m.winnerId m.player1Id).1) ((CalculateEloChange p1.eloRating p2.eloRating m.winnerId m.player1Id).2)) := by
    unfold ConfirmMatch UpdateMatchStatus
    rw [hm]
    simp [hpend, hp1, hp2]
  have hfindDel : findMatch (updatePlayerStatsInTransaction { saveMatch s ({ m with status := "confirmed", confirmedAt := some now }) with histories := s.histories ++ [{ playerId := m.player1Id, matchId := m.id, eloBefore := p1.eloRating, eloAfter := p1.eloRating + (CalculateEloChange p1.eloRating p2.eloRating m.winnerId m.player1Id).1, eloChange := (CalculateEloChange p1.eloRating p2.eloRating m.winnerId m.player1Id).1, opponentId := some m.player2Id, opponentTeamId := none, matchType := "solo", createdAt := now }, { playerId := m.player2Id, matchId := m.id, eloBefore := p2.eloRating, eloAfter := p2.eloRating + (CalculateEloChange p1.eloRating p2.eloRating m.winnerId m.player1Id).2, eloChange := (CalculateEloChange p1.eloRating p2.eloRating m.winnerId m.player1Id).2, opponentId := some m.player1Id, opponentTeamId := none, matchType := "solo", createdAt := now }] } m.player1Id m.player2Id m.winnerId ((CalculateEloChange p1.eloRating p2.eloRating m.winnerId m.player1Id).1) ((CalculateEloChange p1.eloRating p2.eloRating m.winnerId m.player1Id).2)) matchID = some ({ m with status := "confirmed", confirmedAt := some now }) := by
    have hrows : findMatch (updatePlayerStatsInTransaction { saveMatch s ({ m with status := "confirmed", confirmedAt := some now }) with histories := s.histories ++ [{ playerId := m.player1Id, matchId := m.id, eloBefore := p1.eloRating, eloAfter := p1.eloRating + (CalculateEloChange p1.eloRating p2.eloRating m.winnerId m.player1Id).1, eloChange := (CalculateEloChange p1.eloRating p2.eloRating m.winnerId m.player1Id).1, opponentId := some m.player2Id, opponentTeamId := none, matchType := "solo", createdAt := now }, { playerId := m.player2Id, matchId := m.id, eloBefore := p2.eloRating, eloAfter := p2.eloRating + (CalculateEloChange p1.eloRating p2.eloRating m.winnerId m.player1Id).2, eloChange := (CalculateEloChange p1.eloRating p2.eloRating m.winnerId m.player1Id).2, opponentId := some m.player1Id, opponentTeamId := none, matchType := "solo", createdAt := now }] } m.player1Id m.player2Id m.winnerId ((CalculateEloChange p1.eloRating p2.eloRating m.winnerId m.player1Id).1) ((CalculateEloChange p1.eloRating p2.eloRating m.winnerId m.player1Id).2)) matchID =
        findMatch (saveMatch s ({ m with status := "confirmed", confirmedAt := some now })) matchID := rfl
    rw [hrows]
    exact findMatch_saveMatch s matchID m _ hm hmid hmdel
  have hfilter1 : s.histories.filter (fun h => h.matchId == m.id) = [] := by
    apply List.filter_eq_nil_iff.mpr
    intro h hh
    simpa using hnh h hh
  have hfilter2 : s.histories.filter (fun h => !(h.matchId == m.id)) = s.histories := by
    apply List.filter_eq_self.mpr
    intro h hh
    simpa using hnh h hh
  have hnolater : ∀ x ∈ (saveMatch s ({ m with status := "confirmed", confirmedAt := some now })).matchRows, x.deleted = false →
      x.status = "confirmed" → ∀ t, x.confirmedAt = some t → t ≤ now := by
    intro x hx hxdel hxconf t hxt
    simp only [saveMatch, List.mem_map] at hx
    obtain ⟨y, hy, hxy⟩ := hx
    by_cases hyid : y.id = ({ m with status := "confirmed", confirmedAt := some now } : GameMatch).id
    · rw [if_pos hyid] at hxy
      rw [← hxy] at hxt
      have hnt : some now = some t := hxt
      injection hnt with ht
      omega
    · rw [if_neg hyid] at hxy
      rw [← hxy] at hxconf hxt
      exact hlater y hy hxconf t hxt
  have hcas : ∀ (P : List Player) (MR : List GameMatch) (TM : List TeamMatch)
      (TE : List Team) (H : List EloHistory),
      MR = (saveMatch s ({ m with status := "confirmed", confirmedAt := some now })).matchRows →
      recalculateSubsequentMatchesInTransaction
        { players := P, matchRows := MR, teamMatches := TM, teams := TE, histories := H }
        m.player1Id m.player2Id (some now) =
      .ok { players := P, matchRows := MR, teamMatches := TM, teams := TE, histories := H } := by
    intro P MR TM TE H hMR
    apply recalc_subsequent_empty
    intro x hx
    have hx2 : x ∈ MR := hx
    rw [hMR] at hx2
    exact hnolater x hx2
  refine ⟨_, hconf, ?_⟩
  unfold DeleteMatch
  rw [hfindDel]
  dsimp only
  rw [if_pos rfl]
  simp only [updatePlayerStats_histories, List.filter_append, hfilter1, hfilter2,
    List.filter_cons, List.filter_nil, beq_self_eq_true, Bool.not_true, if_true,
    Bool.false_eq_true, if_false, List.nil_append, List.foldl_cons, List.foldl_nil,
    reversePlayerStats_histories, mapPlayers_histories]
  rw [hcas _ _ _ _ _ (by simp)]
  dsimp only
  simp only [Except.map, Except.ok.injEq]
  exact stats_roundtrip _ _ _ _ _ _


/-- Witness for C3: the concrete pending match in `pendingDB` confirmed at
time 7 and then deleted restores both players' aggregates. -/
theorem c3_witness :
    ∃ s1 : DB, ConfirmMatch pendingDB 7 1 = .ok s1 ∧
      Except.map
          (fun s2 => s2.players.map (fun p => (p.eloRating, p.totalMatches, p.wins, p.losses)))
          (DeleteMatch s1 1) =
        .ok (pendingDB.players.map (fun p => (p.eloRating, p.totalMatches, p.wins, p.losses))) :=
  c3_apply_reverse_roundtrip pendingDB 7 1 ⟨1, 1, 2, 1, "pending", 0, none, false⟩
    (pendingPlayer 1) (pendingPlayer 2) rfl rfl rfl rfl
    (by simp [pendingDB])
    (by
      intro m2 hm2 hst t ht
      simp only [pendingDB, List.mem_singleton] at hm2
      subst hm2
      exact absurd hst (by decide))

/-! ## C5: the win-streak maintenance of the part_002 stats update -/


lemma findPlayer_mapPlayers (s : DB) (f : Player → Player) (pid : Nat)
    (hf : ∀ p, (f p).id = p.id) :
    findPlayer (mapPlayers s f) pid = (findPlayer s pid).map f := by
  unfold findPlayer mapPlayers
  rw [List.find?_map]
  have hcomp : ((fun p : Player => p.id == pid) ∘ f) = fun p : Player => p.id == pid := by
    funext p
    simp [Function.comp, hf p]
  rw [hcomp]

lemma findPlayer_id (s : DB) (pid : Nat) (p : Player)
    (h : findPlayer s pid = some p) : p.id = pid := by
  have := List.find?_some h
  simpa using this

/-- The row transformation applied by `updatePlayerStatsInTransaction`,
as a single function on players. -/
noncomputable def statsUpdateFn (a b ww : Nat) (x y : ℝ) : Player → Player := fun p =>
  (fun p : Player => if p.id = (if ww = a then b else a) then { p with losses := p.losses + 1 } else p)
  ((fun p : Player => if p.id = ww then { p with wins := p.wins + 1 } else p)
  ((fun p : Player => if p.id = a ∨ p.id = b then { p with totalMatches := p.totalMatches + 1 } else p)
  ((fun p : Player => if p.id = b then { p with eloRating := p.eloRating + y } else p)
  ((fun p : Player => if p.id = a then { p with eloRating := p.eloRating + x } else p) p))))

lemma findPlayer_updatePlayerStats (s : DB) (a b ww : Nat) (x y : ℝ) (pid : Nat) :
    findPlayer (updatePlayerStatsInTransaction s a b ww x y) pid =
      (findPlayer s pid).map (statsUpdateFn a b ww x y) := by
  unfold updatePlayerStatsInTransaction
  rw [findPlayer_mapPlayers _
      (fun p : Player => if p.id = (if ww = a then b else a) then { p with losses := p.losses + 1 } else p) _
      (by intro q; by_cases h : q.id = (if ww = a then b else a) <;> simp [h]),
    findPlayer_mapPlayers _
      (fun p : Player => if p.id = ww then { p with wins := p.wins + 1 } else p) _
      (by intro q; by_cases h : q.id = ww <;> simp [h]),
    findPlayer_mapPlayers _
      (fun p : Player => if p.id = a ∨ p.id = b then { p with totalMatches := p.totalMatches + 1 } else p) _
      (by intro q; by_cases h : q.id = a ∨ q.id = b <;> simp [h]),
    findPlayer_mapPlayers _
      (fun p : Player => if p.id = b then { p with eloRating := p.eloRating + y } else p) _
      (by intro q; by_cases h : q.id = b <;> simp [h]),
    findPlayer_mapPlayers _
      (fun p : Player => if p.id = a then { p with eloRating := p.eloRating + x } else p) _
      (by intro q; by_cases h : q.id = a <;> simp [h]),
    Option.map_map, Option.map_map, Option.map_map, Option.map_map]
  rfl

lemma statsUpdateFn_id (a b ww : Nat) (x y : ℝ) (p : Player) :
    (statsUpdateFn a b ww x y p).id = p.id := by
  unfold statsUpdateFn
  simp only [apply_ite Player.id]
  simp [ite_self]

lemma statsUpdateFn_currentWinStreak (a b ww : Nat) (x y : ℝ) (p : Player) :
    (statsUpdateFn a b ww x y p).currentWinStreak = p.currentWinStreak := by
  unfold statsUpdateFn
  simp only [apply_ite Player.currentWinStreak]
  simp [ite_self]

lemma statsUpdateFn_bestWinStreak (a b ww : Nat) (x y : ℝ) (p : Player) :
    (statsUpdateFn a b ww x y p).bestWinStreak = p.bestWinStreak := by
  unfold statsUpdateFn
  simp only [apply_ite Player.bestWinStreak]
  simp [ite_self]

/-- C5: on the streak-updating stats update (the solo-confirm path of
unnamed/part_002), the winner's `current_win_streak` is incremented by one,
its `best_win_streak` is raised to the new current streak exactly when the
new streak exceeds it, and the loser's `current_win_streak` is reset to 0. -/
theorem c5_win_streak_update (s : DB) (p1id p2id w : Nat) (c1 c2 : ℝ) (winner loser : Player)
    (hw : w = p1id ∨ w = p2id) (hne : p1id ≠ p2id)
    (hwfind : findPlayer s w = some winner)
    (hlfind : findPlayer s (if w = p1id then p2id else p1id) = some loser) :
    ∃ r : DB, updatePlayerStatsInTransactionStreaks s p1id p2id w c1 c2 = .ok r ∧
      (findPlayer r w).map Player.currentWinStreak = some (winner.currentWinStreak + 1) ∧
      (findPlayer r w).map Player.bestWinStreak =
        some (if winner.currentWinStreak + 1 > winner.bestWinStreak
              then winner.currentWinStreak + 1 else winner.bestWinStreak) ∧
      (findPlayer r (if w = p1id then p2id else p1id)).map Player.currentWinStreak =
        some 0 := by
  have hwid : winner.id = w := findPlayer_id _ _ _ hwfind
  have hlid : loser.id = (if w = p1id then p2id else p1id) := findPlayer_id _ _ _ hlfind
  have hlw : (if w = p1id then p2id else p1id) ≠ w := by
    by_cases hD : w = p1id
    · rw [if_pos hD]
      intro hcon
      exact hne (hcon.trans hD).symm
    · rw [if_neg hD]
      intro hcon
      exact hD hcon.symm
  have hmapfl : ∀ (X : DB) (pid : Nat),
      findPlayer (mapPlayers X (fun p : Player =>
        if p.id = (if w = p1id then p2id else p1id) then
          { p with currentWinStreak := 0 } else p)) pid =
      (findPlayer X pid).map (fun p : Player =>
        if p.id = (if w = p1id then p2id else p1id) then
          { p with currentWinStreak := 0 } else p) := by
    intro X pid
    apply findPlayer_mapPlayers
    intro q
    by_cases h : q.id = (if w = p1id then p2id else p1id) <;> simp [h]
  have hmapfw : ∀ (X : DB) (pid : Nat) (cs bs : ℤ),
      findPlayer (mapPlayers X (fun p : Player =>
        if p.id = w then
          { p with currentWinStreak := cs,
                   bestWinStreak := if cs > bs then cs else p.bestWinStreak }
        else p)) pid =
      (findPlayer X pid).map (fun p : Player =>
        if p.id = w then
          { p with currentWinStreak := cs,
                   bestWinStreak := if cs > bs then cs else p.bestWinStreak }
        else p) := by
    intro X pid cs bs
    apply findPlayer_mapPlayers
    intro q
    by_cases h : q.id = w <;> simp [h]
  simp only [updatePlayerStatsInTransactionStreaks, findPlayer_updatePlayerStats,
    hwfind, hlfind, Option.map_some]
  refine ⟨_, rfl, ?_, ?_, ?_⟩
  · rw [hmapfl, hmapfw, findPlayer_updatePlayerStats, hwfind]
    simp [statsUpdateFn_id, statsUpdateFn_currentWinStreak, statsUpdateFn_bestWinStreak,
      hwid, hlw, Ne.symm hlw]
  · rw [hmapfl, hmapfw, findPlayer_updatePlayerStats, hwfind]
    simp [statsUpdateFn_id, statsUpdateFn_currentWinStreak, statsUpdateFn_bestWinStreak,
      hwid, hlw, Ne.symm hlw]
  · rw [hmapfl, hmapfw, findPlayer_updatePlayerStats, hlfind]
    simp [statsUpdateFn_id, statsUpdateFn_currentWinStreak, statsUpdateFn_bestWinStreak,
      hlid, hlw, Ne.symm hlw]


/-- Witness for C5: a concrete two-player store where player 1 beats
player 2. -/
theorem c5_witness :
    ∃ r : DB, updatePlayerStatsInTransactionStreaks pendingDB 1 2 1 16 (-16) = .ok r ∧
      (findPlayer r 1).map Player.currentWinStreak = some ((pendingPlayer 1).currentWinStreak + 1) ∧
      (findPlayer r 1).map Player.bestWinStreak =
        some (if (pendingPlayer 1).currentWinStreak + 1 > (pendingPlayer 1).bestWinStreak
              then (pendingPlayer 1).currentWinStreak + 1 else (pendingPlayer 1).bestWinStreak) ∧
      (findPlayer r (if 1 = 1 then 2 else 1)).map Player.currentWinStreak = some 0 :=
  c5_win_streak_update pendingDB 1 2 1 16 (-16) (pendingPlayer 1) (pendingPlayer 2)
    (Or.inl rfl) (by decide) rfl rfl


/-! ## C9: the auto-validation sweep -/

/-- An empty store, on which any confirmation fails with `"match not found"`. -/
def emptyDB : DB :=
  { players := [], matchRows := [], teamMatches := [], teams := [], histories := [] }

/-- C9: the sweep selects exactly the non-deleted pending matches (solo and
team) created strictly more than 24 hours before the sweep time, keeps them
in discovery order (the selections are sublists of the stored tables), folds
the confirm step over the solo batch and then the team batch, and a step
whose confirmation fails leaves the state unchanged, so one failing match
never blocks the remaining ones. -/
theorem c9_sweep_selection_and_resilience (s : DB) (now : ℤ) :
    (∀ m : GameMatch, m ∈ expiredSoloMatches s now ↔
      (m ∈ s.matchRows ∧ m.deleted = false ∧ m.status = "pending" ∧
        m.createdAt < now - 24)) ∧
    (∀ m : TeamMatch, m ∈ expiredTeamMatchesOf s now ↔
      (m ∈ s.teamMatches ∧ m.deleted = false ∧ m.status = "pending" ∧
        m.createdAt < now - 24)) ∧
    (expiredSoloMatches s now).Sublist s.matchRows ∧
    (expiredTeamMatchesOf s now).Sublist s.teamMatches ∧
    ValidateExpiredMatches s now =
      (expiredTeamMatchesOf s now).foldl (autoConfirmTeamStep now)
        ((expiredSoloMatches s now).foldl (autoConfirmStep now) s) ∧
    (∀ (st : DB) (m : GameMatch) (e : String), ConfirmMatch st now m.id = .error e →
      autoConfirmStep now st m = st) ∧
    (∀ (st : DB) (m : TeamMatch) (e : String), ConfirmTeamMatch st now m.id = .error e →
      autoConfirmTeamStep now st m = st) := by
  refine ⟨?_, ?_, ?_, ?_, rfl, ?_, ?_⟩
  · intro m
    unfold expiredSoloMatches
    rw [List.mem_filter]
    simp [and_assoc]
  · intro m
    unfold expiredTeamMatchesOf
    rw [List.mem_filter]
    simp [and_assoc]
  · exact List.filter_sublist _
  · exact List.filter_sublist _
  · intro st m e herr
    unfold autoConfirmStep
    rw [herr]
  · intro st m e herr
    unfold autoConfirmTeamStep
    rw [herr]

/-- Witness for C9: a confirm failure (here: the match id is absent) leaves
the sweeper state unchanged, so the remaining batch is processed from the
same state. -/
theorem c9_witness :
    autoConfirmStep 0 emptyDB ⟨9, 1, 2, 1, "pending", -30, none, false⟩ = emptyDB :=
  (c9_sweep_selection_and_resilience emptyDB 0).2.2.2.2.2.1 emptyDB
    ⟨9, 1, 2, 1, "pending", -30, none, false⟩ "match not found" rfl

lemma applyRanksAux_histories (f : Player → ℝ) (setRank : Player → Nat → Player)
    (l : List Player) : ∀ (s : DB) (i : Nat) (prev : ℝ) (cur : Nat),
    (applyRanksAux f setRank s i prev cur l).histories = s.histories := by
  induction l with
  | nil => intro s i prev cur; rfl
  | cons p rest ih =>
    intro s i prev cur
    unfold applyRanksAux
    rw [ih]
    rfl

lemma applyRanksAux_teams (f : Player → ℝ) (setRank : Player → Nat → Player)
    (l : List Player) : ∀ (s : DB) (i : Nat) (prev : ℝ) (cur : Nat),
    (applyRanksAux f setRank s i prev cur l).teams = s.teams := by
  induction l with
  | nil => intro s i prev cur; rfl
  | cons p rest ih =>
    intro s i prev cur
    unfold applyRanksAux
    rw [ih]
    rfl

lemma applyRanksAux_matchRows (f : Player → ℝ) (setRank : Player → Nat → Player)
    (l : List Player) : ∀ (s : DB) (i : Nat) (prev : ℝ) (cur : Nat),
    (applyRanksAux f setRank s i prev cur l).matchRows = s.matchRows := by
  induction l with
  | nil => intro s i prev cur; rfl
  | cons p rest ih =>
    intro s i prev cur
    unfold applyRanksAux
    rw [ih]
    rfl

lemma findTeam_mapTeams (rows : List Team) (g : Team → Team) (tid : Nat)
    (hg : ∀ t, (g t).id = t.id) :
    (rows.map g).find? (fun t => t.id == tid) =
      (rows.find? (fun t => t.id == tid)).map g := by
  rw [List.find?_map]
  have hcomp : ((fun t : Team => t.id == tid) ∘ g) = fun t : Team => t.id == tid := by
    funext t
    simp [Function.comp, hg t]
  rw [hcomp]

lemma findTeam_id (s : DB) (tid : Nat) (t : Team)
    (h : findTeam s tid = some t) : t.id = tid := by
  have := List.find?_some h
  simpa using this


@[simp] lemma mapPlayers_teams (s : DB) (f : Player → Player) :
    (mapPlayers s f).teams = s.teams := rfl

@[simp] lemma saveTeamMatch_teams (s : DB) (m : TeamMatch) :
    (saveTeamMatch s m).teams = s.teams := rfl

@[simp] lemma saveTeamMatch_players (s : DB) (m : TeamMatch) :
    (saveTeamMatch s m).players = s.players := rfl

@[simp] lemma saveTeamMatch_histories (s : DB) (m : TeamMatch) :
    (saveTeamMatch s m).histories = s.histories := rfl

lemma recalcTeamRanks_histories (x : DB) :
    (recalculateTeamRanks x).histories = x.histories := by
  unfold recalculateTeamRanks
  rw [applyRanksAux_histories]

lemma recalcTeamRanks_teams (x : DB) :
    (recalculateTeamRanks x).teams = x.teams := by
  unfold recalculateTeamRanks
  rw [applyRanksAux_teams]

lemma findTeam_recalcTeamRanks (x : DB) (tid : Nat) :
    findTeam (recalculateTeamRanks x) tid = findTeam x tid := by
  unfold findTeam
  rw [recalcTeamRanks_teams]

set_option maxHeartbeats 2000000 in
/-- C7: confirming a team match appends exactly four EloHistory rows, one per
participating player, each player's delta computed one-sidedly against the
arithmetic average of the opposing pair's team ratings, and each team's
aggregate rating moves by the arithmetic mean of its own two players'
deltas. -/
theorem c7_team_confirm_four_histories (s : DB) (now : ℤ) (matchID : Nat)
    (m : TeamMatch) (t1 t2 : Team) (p11 p12 p21 p22 : Player)
    (hm : findTeamMatch s matchID = some m)
    (hpend : m.status = "pending")
    (ht1 : findTeam s m.team1Id = some t1)
    (ht2 : findTeam s m.team2Id = some t2)
    (hp11 : findPlayer s t1.player1Id = some p11)
    (hp12 : findPlayer s t1.player2Id = some p12)
    (hp21 : findPlayer s t2.player1Id = some p21)
    (hp22 : findPlayer s t2.player2Id = some p22)
    (htne : m.team1Id ≠ m.team2Id) :
    Except.map
        (fun r => (r.histories,
          (findTeam r m.team1Id).map Team.eloRating,
          (findTeam r m.team2Id).map Team.eloRating))
        (ConfirmTeamMatch s now matchID) =
      .ok (s.histories ++
            [ { playerId := p11.id, matchId := m.id, eloBefore := p11.teamEloRating, eloAfter := p11.teamEloRating + CalculateTeamEloChange p11.teamEloRating ((p21.teamEloRating + p22.teamEloRating) / 2) (m.winnerTeamId == m.team1Id), eloChange := CalculateTeamEloChange p11.teamEloRating ((p21.teamEloRating + p22.teamEloRating) / 2) (m.winnerTeamId == m.team1Id), opponentId := none, opponentTeamId := some m.team2Id, matchType := "team", createdAt := now },
              { playerId := p12.id, matchId := m.id, eloBefore := p12.teamEloRating, eloAfter := p12.teamEloRating + CalculateTeamEloChange p12.teamEloRating ((p21.teamEloRating + p22.teamEloRating) / 2) (m.winnerTeamId == m.team1Id), eloChange := CalculateTeamEloChange p12.teamEloRating ((p21.teamEloRating + p22.teamEloRating) / 2) (m.winnerTeamId == m.team1Id), opponentId := none, opponentTeamId := some m.team2Id, matchType := "team", createdAt := now },
              { playerId := p21.id, matchId := m.id, eloBefore := p21.teamEloRating, eloAfter := p21.teamEloRating + CalculateTeamEloChange p21.teamEloRating ((p11.teamEloRating + p12.teamEloRating) / 2) (!(m.winnerTeamId == m.team1Id)), eloChange := CalculateTeamEloChange p21.teamEloRating ((p11.teamEloRating + p12.teamEloRating) / 2) (!(m.winnerTeamId == m.team1Id)), opponentId := none, opponentTeamId := some m.team1Id, matchType := "team", createdAt := now },
              { playerId := p22.id, matchId := m.id, eloBefore := p22.teamEloRating, eloAfter := p22.teamEloRating + CalculateTeamEloChange p22.teamEloRating ((p11.teamEloRating + p12.teamEloRating) / 2) (!(m.winnerTeamId == m.team1Id)), eloChange := CalculateTeamEloChange p22.teamEloRating ((p11.teamEloRating + p12.teamEloRating) / 2) (!(m.winnerTeamId == m.team1Id)), opponentId := none, opponentTeamId := some m.team1Id, matchType := "team", createdAt := now } ],
          some (t1.eloRating + (CalculateTeamEloChange p11.teamEloRating ((p21.teamEloRating + p22.teamEloRating) / 2) (m.winnerTeamId == m.team1Id) + CalculateTeamEloChange p12.teamEloRating ((p21.teamEloRating + p22.teamEloRating) / 2) (m.winnerTeamId == m.team1Id)) / 2),
          some (t2.eloRating + (CalculateTeamEloChange p21.teamEloRating ((p11.teamEloRating + p12.teamEloRating) / 2) (!(m.winnerTeamId == m.team1Id)) + CalculateTeamEloChange p22.teamEloRating ((p11.teamEloRating + p12.teamEloRating) / 2) (!(m.winnerTeamId == m.team1Id))) / 2)) := by
  have ht1id : t1.id = m.team1Id := findTeam_id _ _ _ ht1
  have ht2id : t2.id = m.team2Id := findTeam_id _ _ _ ht2
  have ht1f : s.teams.find? (fun t => t.id == m.team1Id) = some t1 := ht1
  have ht2f : s.teams.find? (fun t => t.id == m.team2Id) = some t2 := ht2
  have hgid : ∀ (tid : Nat) (TM : ℤ) (ER : ℝ) (c : Prop) [Decidable c] (W L : ℤ) (t : Team),
      ((fun t : Team => if t.id = tid then { t with totalMatches := TM, eloRating := ER, wins := if c then W + 1 else t.wins, losses := if c then t.losses else L + 1 } else t) t).id = t.id := by
    intro tid TM ER c inst W L t
    by_cases h : t.id = tid <;> simp [h]
  have hsecond : ∀ (TM : ℤ) (ER : ℝ) (c : Prop) [Decidable c] (W L : ℤ),
      (s.teams.map (fun t => if t.id = m.team1Id then { t with totalMatches := TM, eloRating := ER, wins := if c then W + 1 else t.wins, losses := if c then t.losses else L + 1 } else t)).find? (fun t => t.id == m.team2Id) = some t2 := by
    intro TM ER c inst W L
    rw [findTeam_mapTeams _ _ _ (hgid m.team1Id TM ER c W L), ht2f]
    simp [ht2id, Ne.symm htne]
  have hfin1 : ∀ (TM1 : ℤ) (ER1 : ℝ) (c1 : Prop) [Decidable c1] (W1 L1 : ℤ)
      (TM2 : ℤ) (ER2 : ℝ) (c2 : Prop) [Decidable c2] (W2 L2 : ℤ),
      ((s.teams.map (fun t => if t.id = m.team1Id then { t with totalMatches := TM1, eloRating := ER1, wins := if c1 then W1 + 1 else t.wins, losses := if c1 then t.losses else L1 + 1 } else t)).map (fun t => if t.id = m.team2Id then { t with totalMatches := TM2, eloRating := ER2, wins := if c2 then W2 + 1 else t.wins, losses := if c2 then t.losses else L2 + 1 } else t)).find? (fun t => t.id == m.team1Id) =
        some { t1 with totalMatches := TM1, eloRating := ER1, wins := if c1 then W1 + 1 else t1.wins, losses := if c1 then t1.losses else L1 + 1 } := by
    intro TM1 ER1 c1 i1 W1 L1 TM2 ER2 c2 i2 W2 L2
    rw [findTeam_mapTeams _ _ _ (hgid m.team2Id TM2 ER2 c2 W2 L2),
      findTeam_mapTeams _ _ _ (hgid m.team1Id TM1 ER1 c1 W1 L1), ht1f]
    simp [ht1id, htne]
  have hfin2 : ∀ (TM1 : ℤ) (ER1 : ℝ) (c1 : Prop) [Decidable c1] (W1 L1 : ℤ)
      (TM2 : ℤ) (ER2 : ℝ) (c2 : Prop) [Decidable c2] (W2 L2 : ℤ),
      ((s.teams.map (fun t => if t.id = m.team1Id then { t with totalMatches := TM1, eloRating := ER1, wins := if c1 then W1 + 1 else t.wins, losses := if c1 then t.losses else L1 + 1 } else t)).map (fun t => if t.id = m.team2Id then { t with totalMatches := TM2, eloRating := ER2, wins := if c2 then W2 + 1 else t.wins, losses := if c2 then t.losses else L2 + 1 } else t)).find? (fun t => t.id == m.team2Id) =
        some { t2 with totalMatches := TM2, eloRating := ER2, wins := if c2 then W2 + 1 else t2.wins, losses := if c2 then t2.losses else L2 + 1 } := by
    intro TM1 ER1 c1 i1 W1 L1 TM2 ER2 c2 i2 W2 L2
    rw [findTeam_mapTeams _ _ _ (hgid m.team2Id TM2 ER2 c2 W2 L2),
      findTeam_mapTeams _ _ _ (hgid m.team1Id TM1 ER1 c1 W1 L1), ht2f]
    simp [ht2id, Ne.symm htne]
  unfold ConfirmTeamMatch UpdateTeamMatchStatus
  rw [hm]
  simp [hpend, loadTeam, ht1, ht2, hp11, hp12, hp21, hp22]
  simp only [updateTeamEloAndStats, UpdateTeamStats, CalculateTeamAverageElo, findTeam,
    mapPlayers_teams, saveTeamMatch_teams, mapPlayers_histories, saveTeamMatch_histories,
    recalcTeamRanks_histories, recalcTeamRanks_teams, ht1f, hsecond, hfin1, hfin2,
    Except.map, Option.map_some]
  rfl

/-- Witness for C7 on a concrete four-player, two-team state: confirming the
pending team match writes the four history rows and moves both team
aggregates by the mean of their players' deltas. -/
theorem c7_witness :
    Except.map
        (fun r => (r.histories,
          (findTeam r 1).map Team.eloRating,
          (findTeam r 2).map Team.eloRating))
        (ConfirmTeamMatch (⟨[⟨1, 1200, 0, 0, 0, 0, 0, 0, 1200, 0, 0, 0, 0⟩, ⟨2, 1200, 0, 0, 0, 0, 0, 0, 1200, 0, 0, 0, 0⟩, ⟨3, 1200, 0, 0, 0, 0, 0, 0, 1200, 0, 0, 0, 0⟩, ⟨4, 1200, 0, 0, 0, 0, 0, 0, 1200, 0, 0, 0, 0⟩], [], [⟨1, 1, 2, 1, "pending", 0, none, false⟩], [⟨1, 1, 2, 1200, 0, 0, 0⟩, ⟨2, 3, 4, 1200, 0, 0, 0⟩], []⟩ : DB) 5 1) =
      .ok ([ { playerId := 1, matchId := 1, eloBefore := 1200, eloAfter := 1200 + CalculateTeamEloChange 1200 ((1200 + 1200) / 2) ((1 : Nat) == 1), eloChange := CalculateTeamEloChange 1200 ((1200 + 1200) / 2) ((1 : Nat) == 1), opponentId := none, opponentTeamId := some 2, matchType := "team", createdAt := 5 },
             { playerId := 2, matchId := 1, eloBefore := 1200, eloAfter := 1200 + CalculateTeamEloChange 1200 ((1200 + 1200) / 2) ((1 : Nat) == 1), eloChange := CalculateTeamEloChange 1200 ((1200 + 1200) / 2) ((1 : Nat) == 1), opponentId := none, opponentTeamId := some 2, matchType := "team", createdAt := 5 },
             { playerId := 3, matchId := 1, eloBefore := 1200, eloAfter := 1200 + CalculateTeamEloChange 1200 ((1200 + 1200) / 2) (!((1 : Nat) == 1)), eloChange := CalculateTeamEloChange 1200 ((1200 + 1200) / 2) (!((1 : Nat) == 1)), opponentId := none, opponentTeamId := some 1, matchType := "team", createdAt := 5 },
             { playerId := 4, matchId := 1, eloBefore := 1200, eloAfter := 1200 + CalculateTeamEloChange 1200 ((1200 + 1200) / 2) (!((1 : Nat) == 1)), eloChange := CalculateTeamEloChange 1200 ((1200 + 1200) / 2) (!((1 : Nat) == 1)), opponentId := none, opponentTeamId := some 1, matchType := "team", createdAt := 5 } ],
        some (1200 + (CalculateTeamEloChange 1200 ((1200 + 1200) / 2) ((1 : Nat) == 1) + CalculateTeamEloChange 1200 ((1200 + 1200) / 2) ((1 : Nat) == 1)) / 2),
        some (1200 + (CalculateTeamEloChange 1200 ((1200 + 1200) / 2) (!((1 : Nat) == 1)) + CalculateTeamEloChange 1200 ((1200 + 1200) / 2) (!((1 : Nat) == 1))) / 2)) :=
  c7_team_confirm_four_histories (⟨[⟨1, 1200, 0, 0, 0, 0, 0, 0, 1200, 0, 0, 0, 0⟩, ⟨2, 1200, 0, 0, 0, 0, 0, 0, 1200, 0, 0, 0, 0⟩, ⟨3, 1200, 0, 0, 0, 0, 0, 0, 1200, 0, 0, 0, 0⟩, ⟨4, 1200, 0, 0, 0, 0, 0, 0, 1200, 0, 0, 0, 0⟩], [], [⟨1, 1, 2, 1, "pending", 0, none, false⟩], [⟨1, 1, 2, 1200, 0, 0, 0⟩, ⟨2, 3, 4, 1200, 0, 0, 0⟩], []⟩ : DB) 5 1
    ⟨1, 1, 2, 1, "pending", 0, none, false⟩
    ⟨1, 1, 2, 1200, 0, 0, 0⟩ ⟨2, 3, 4, 1200, 0, 0, 0⟩
    ⟨1, 1200, 0, 0, 0, 0, 0, 0, 1200, 0, 0, 0, 0⟩ ⟨2, 1200, 0, 0, 0, 0, 0, 0, 1200, 0, 0, 0, 0⟩ ⟨3, 1200, 0, 0, 0, 0, 0, 0, 1200, 0, 0, 0, 0⟩ ⟨4, 1200, 0, 0, 0, 0, 0, 0, 1200, 0, 0, 0, 0⟩
    rfl rfl rfl rfl rfl rfl rfl rfl (by decide)

instance (f : Player → ℝ) : IsTotal Player (rankRel f) where
  total p q := by
    rcases lt_trichotomy (f p) (f q) with h | h | h
    · exact Or.inr (Or.inl h)
    · rcases Nat.le_total p.id q.id with hid | hid
      · exact Or.inl (Or.inr ⟨h, hid⟩)
      · exact Or.inr (Or.inr ⟨h.symm, hid⟩)
    · exact Or.inl (Or.inl h)

instance (f : Player → ℝ) : IsTrans Player (rankRel f) where
  trans a b c hab hbc := by
    rcases hab with hab | ⟨hab, haid⟩
    · rcases hbc with hbc | ⟨hbc, _⟩
      · exact Or.inl (hbc.trans hab)
      · exact Or.inl (hbc ▸ hab)
    · rcases hbc with hbc | ⟨hbc, hbid⟩
      · exact Or.inl (hab ▸ hbc)
      · exact Or.inr ⟨hab.trans hbc, haid.trans hbid⟩

lemma rankRel_le (f : Player → ℝ) {p q : Player} (h : rankRel f p q) : f q ≤ f p := by
  rcases h with h | ⟨h, _⟩
  · exact h.le
  · exact h.ge

lemma sorted_rankRel_anti (f : Player → ℝ) (l : List Player)
    (h : List.Sorted (rankRel f) l) {i j : Nat} (hij : i < j) (hj : j < l.length) :
    f (l.getD j zeroPlayer) ≤ f (l.getD i zeroPlayer) := by
  have hi : i < l.length := hij.trans hj
  rw [List.getD_eq_get _ _ hj, List.getD_eq_get _ _ hi]
  exact rankRel_le f (h.rel_get_of_lt hij)

lemma ranksFrom_length (f : Player → ℝ) :
    ∀ (l : List Player) (i : Nat) (prev : ℝ) (cur : Nat),
      (ranksFrom f i prev cur l).length = l.length := by
  intro l
  induction l with
  | nil => intro i prev cur; rfl
  | cons p rest ih =>
    intro i prev cur
    unfold ranksFrom
    simp [ih]

lemma applyRanksAux_eq_foldl (f : Player → ℝ) (setRank : Player → Nat → Player) :
    ∀ (l : List Player) (s : DB) (i : Nat) (prev : ℝ) (cur : Nat),
      applyRanksAux f setRank s i prev cur l =
        (l.zip (ranksFrom f i prev cur l)).foldl
          (fun st pr => mapPlayers st (fun q => if q.id = pr.1.id then setRank q pr.2 else q)) s := by
  intro l
  induction l with
  | nil => intro s i prev cur; rfl
  | cons p rest ih =>
    intro s i prev cur
    unfold applyRanksAux ranksFrom
    simp only [List.zip_cons_cons, List.foldl_cons]
    exact ih _ _ _ _

lemma ranksFrom_getD_succ (f : Player → ℝ) :
    ∀ (l : List Player) (i : Nat) (prev : ℝ) (cur : Nat) (j : Nat), j + 1 < l.length →
      (ranksFrom f i prev cur l).getD (j + 1) 0 =
        if f (l.getD (j + 1) zeroPlayer) ≠ f (l.getD j zeroPlayer) then i + j + 2
        else (ranksFrom f i prev cur l).getD j 0 := by
  intro l
  induction l with
  | nil => intro i prev cur j h; simp at h
  | cons p rest ih =>
    intro i prev cur j h
    cases j with
    | zero =>
      cases rest with
      | nil => simp at h
      | cons q rest2 =>
        simp only [ranksFrom, List.getD_cons_succ, List.getD_cons_zero]
        by_cases hq : f q ≠ f p
        · simp [hq]
        · simp [hq]
    | succ j2 =>
      cases rest with
      | nil => simp at h
      | cons q rest2 =>
        have h2 : j2 + 1 < (q :: rest2).length := by
          simpa using Nat.lt_of_succ_lt_succ h
        have := ih (i + 1) (f p) (if 0 < i ∧ f p ≠ prev then i + 1 else cur) j2 h2
        simp only [ranksFrom, List.getD_cons_succ] at this ⊢
        rw [this]
        have harith : i + 1 + j2 + 2 = i + (j2 + 1) + 2 := by omega
        rw [harith]

lemma ranksOf_getD_zero (f : Player → ℝ) (p : Player) (rest : List Player) :
    (ranksOf f (p :: rest)).getD 0 0 = 1 := by
  simp [ranksOf, ranksFrom]

lemma ranksOf_getD_eq_of_eq (f : Player → ℝ) (l : List Player)
    (hsort : List.Sorted (rankRel f) l) :
    ∀ (i j : Nat), i ≤ j → j < l.length →
      f (l.getD i zeroPlayer) = f (l.getD j zeroPlayer) →
      (ranksOf f l).getD i 0 = (ranksOf f l).getD j 0 := by
  intro i j hij
  induction j, hij using Nat.le_induction with
  | base => intro _ _; rfl
  | succ k hik ihk =>
    intro hk hf
    have hkl : k < l.length := Nat.lt_of_succ_lt hk
    have hfk : f (l.getD i zeroPlayer) = f (l.getD k zeroPlayer) := by
      rcases Nat.lt_or_ge i k with hlt | hge
      · have h1 : f (l.getD k zeroPlayer) ≤ f (l.getD i zeroPlayer) :=
          sorted_rankRel_anti f l hsort hlt hkl
        have h2 : f (l.getD (k + 1) zeroPlayer) ≤ f (l.getD k zeroPlayer) :=
          sorted_rankRel_anti f l hsort (Nat.lt_succ_self k) hk
        exact le_antisymm (hf ▸ h2) h1
      · have hik2 : i = k := Nat.le_antisymm hik hge
        rw [hik2]
    have hstep : (ranksOf f l).getD (k + 1) 0 = (ranksOf f l).getD k 0 := by
      have := ranksFrom_getD_succ f l 0 0 1 k hk
      rw [ranksOf, this, if_neg]
      intro hcon
      exact hcon (hfk ▸ hf ▸ rfl)
    rw [hstep]
    exact ihk hkl hfk


/-- C8: the rank recomputation sorts players by rating descending with ties
broken by ascending id, then walks the sorted list assigning competition
ranks: both engine recomputations equal the positional assignment of the
walk's rank list over the sorted order; the first rank is 1, players with
equal ratings receive equal ranks, and a player whose rating strictly drops
below the previous sorted entry receives its 1-based position, leaving gaps
after ties. -/
theorem c8_competition_ranking (f : Player → ℝ) (xs : List Player) :
    (List.insertionSort (rankRel f) xs).Perm xs ∧
    List.Sorted (rankRel f) (List.insertionSort (rankRel f) xs) ∧
    (∀ s : DB, RecalculateAllRanks s =
      ((List.insertionSort (rankRel Player.eloRating) s.players).zip
          (ranksOf Player.eloRating (List.insertionSort (rankRel Player.eloRating) s.players))).foldl
        (fun st pr => mapPlayers st (fun q => if q.id = pr.1.id then { q with rank := pr.2 } else q)) s) ∧
    (∀ s : DB, recalculateTeamRanks s =
      ((List.insertionSort (rankRel Player.teamEloRating) s.players).zip
          (ranksOf Player.teamEloRating (List.insertionSort (rankRel Player.teamEloRating) s.players))).foldl
        (fun st pr => mapPlayers st (fun q => if q.id = pr.1.id then { q with teamRank := pr.2 } else q)) s) ∧
    (ranksOf f (List.insertionSort (rankRel f) xs)).length = xs.length ∧
    (0 < xs.length → (ranksOf f (List.insertionSort (rankRel f) xs)).getD 0 0 = 1) ∧
    (∀ i j : Nat, i ≤ j → j < xs.length →
      f ((List.insertionSort (rankRel f) xs).getD i zeroPlayer) = f ((List.insertionSort (rankRel f) xs).getD j zeroPlayer) →
      (ranksOf f (List.insertionSort (rankRel f) xs)).getD i 0 = (ranksOf f (List.insertionSort (rankRel f) xs)).getD j 0) ∧
    (∀ j : Nat, j + 1 < xs.length →
      f ((List.insertionSort (rankRel f) xs).getD (j + 1) zeroPlayer) ≠ f ((List.insertionSort (rankRel f) xs).getD j zeroPlayer) →
      (ranksOf f (List.insertionSort (rankRel f) xs)).getD (j + 1) 0 = j + 2) := by
  have hlen : (List.insertionSort (rankRel f) xs).length = xs.length := (List.perm_insertionSort _ xs).length_eq
  refine ⟨List.perm_insertionSort _ xs, List.sorted_insertionSort _ xs, ?_, ?_, ?_, ?_, ?_, ?_⟩
  · intro s
    unfold RecalculateAllRanks
    exact applyRanksAux_eq_foldl _ _ _ s 0 0 1
  · intro s
    unfold recalculateTeamRanks
    exact applyRanksAux_eq_foldl _ _ _ s 0 0 1
  · rw [ranksOf, ranksFrom_length, hlen]
  · intro h0
    rcases hins : (List.insertionSort (rankRel f) xs) with _ | ⟨p, rest⟩
    · rw [hins] at hlen
      simp at hlen
      omega
    · exact ranksOf_getD_zero f p rest
  · intro i j hij hj hf
    exact ranksOf_getD_eq_of_eq f _ (List.sorted_insertionSort _ xs) i j hij
      (by rw [hlen]; exact hj) hf
  · intro j hj hne
    have hb : j + 1 < (List.insertionSort (rankRel f) xs).length := by rw [hlen]; exact hj
    rw [ranksOf] at *
    rw [ranksFrom_getD_succ f _ 0 0 1 j hb, if_pos hne]
    omega

lemma map_rankProj_mapPlayers (s : DB) (f : Player → Player)
    (hf : ∀ p : Player, (f p).id = p.id ∧ (f p).rank = p.rank ∧ (f p).teamRank = p.teamRank) :
    (mapPlayers s f).players.map (fun p => (p.id, p.rank, p.teamRank)) =
      s.players.map (fun p => (p.id, p.rank, p.teamRank)) := by
  simp only [mapPlayers, List.map_map]
  apply List.map_congr_left
  intro p _
  obtain ⟨h1, h2, h3⟩ := hf p
  simp [Function.comp, h1, h2, h3]

lemma rankProj_updatePlayerStats (s : DB) (a b w : Nat) (c1 c2 : ℝ) :
    (updatePlayerStatsInTransaction s a b w c1 c2).players.map
        (fun p => (p.id, p.rank, p.teamRank)) =
      s.players.map (fun p => (p.id, p.rank, p.teamRank)) := by
  simp only [updatePlayerStatsInTransaction]
  refine (map_rankProj_mapPlayers _ _ ?_).trans
    ((map_rankProj_mapPlayers _ _ ?_).trans
      ((map_rankProj_mapPlayers _ _ ?_).trans
        ((map_rankProj_mapPlayers _ _ ?_).trans
          (map_rankProj_mapPlayers _ _ ?_)))) <;>
    · intro p
      dsimp only
      simp [apply_ite]

lemma rankProj_reversePlayerStats (s : DB) (a b w : Nat) :
    (reversePlayerStatsInTransaction s a b w).players.map
        (fun p => (p.id, p.rank, p.teamRank)) =
      s.players.map (fun p => (p.id, p.rank, p.teamRank)) := by
  simp only [reversePlayerStatsInTransaction]
  refine (map_rankProj_mapPlayers _ _ ?_).trans
    ((map_rankProj_mapPlayers _ _ ?_).trans
      (map_rankProj_mapPlayers _ _ ?_)) <;>
    · intro p
      dsimp only
      simp [apply_ite]

lemma rankProj_foldl_histories (l : List EloHistory) :
    ∀ s : DB,
      ((l.foldl (fun st h => mapPlayers st (fun p =>
          if p.id = h.playerId then
            { p with eloRating := p.eloRating - h.eloChange } else p)) s).players.map
        (fun p => (p.id, p.rank, p.teamRank))) =
      s.players.map (fun p => (p.id, p.rank, p.teamRank)) := by
  induction l with
  | nil => intro s; rfl
  | cons h t ih =>
    intro s
    rw [List.foldl_cons]
    refine (ih _).trans (map_rankProj_mapPlayers _ _ ?_)
    intro p
    by_cases hp : p.id = h.playerId <;> simp [hp]

lemma rankProj_recalcStep (s : DB) (m : GameMatch) (r : DB)
    (h : recalcStep s m = .ok r) :
    r.players.map (fun p => (p.id, p.rank, p.teamRank)) =
      s.players.map (fun p => (p.id, p.rank, p.teamRank)) := by
  simp only [recalcStep] at h
  split at h
  · rw [Except.ok.injEq] at h
    subst h
    refine (map_rankProj_mapPlayers _ _ ?_).trans
      ((map_rankProj_mapPlayers _ _ ?_).trans rfl) <;>
      · intro p
        dsimp only
        simp [apply_ite]
  · exact absurd h (by simp)

lemma rankProj_cascadeFold (l : List GameMatch) :
    ∀ (s r : DB), l.foldlM recalcStep s = .ok r →
      r.players.map (fun p => (p.id, p.rank, p.teamRank)) =
        s.players.map (fun p => (p.id, p.rank, p.teamRank)) := by
  induction l with
  | nil =>
    intro s r h
    rw [List.foldlM_nil] at h
    obtain rfl : s = r := Except.ok.inj h
    rfl
  | cons m t ih =>
    intro s r h
    rw [List.foldlM_cons] at h
    cases hstep : recalcStep s m with
    | error e =>
      rw [hstep] at h
      exact Except.noConfusion h
    | ok s2 =>
      rw [hstep] at h
      exact (ih s2 r h).trans (rankProj_recalcStep s m s2 hstep)

lemma rankProj_recalcSubsequent (s : DB) (a b : Nat) (dt : Option ℤ) (r : DB)
    (h : recalculateSubsequentMatchesInTransaction s a b dt = .ok r) :
    r.players.map (fun p => (p.id, p.rank, p.teamRank)) =
      s.players.map (fun p => (p.id, p.rank, p.teamRank)) := by
  simp only [recalculateSubsequentMatchesInTransaction] at h
  split at h
  · obtain rfl : s = r := by simpa using h
    rfl
  · exact rankProj_cascadeFold _ _ _ h


/-- C4 (amended): no solo-match operation recomputes ranks: success of
UpdateMatchStatus (confirm/reject), DeleteMatch (reverse + cascade) and
CancelMatch leaves every player's stored `rank` and `team_rank` exactly as
before; only a team-match confirm recomputes ranks, its result being
`recalculateTeamRanks` of the post-update state. -/
theorem c4_rank_updates_scope :
    (∀ (s : DB) (now : ℤ) (matchID : Nat) (req : UpdateMatchStatusRequest) (r : DB),
      UpdateMatchStatus s now matchID req = .ok r →
      r.players.map (fun p => (p.id, p.rank, p.teamRank)) =
        s.players.map (fun p => (p.id, p.rank, p.teamRank))) ∧
    (∀ (s : DB) (matchID : Nat) (r : DB),
      DeleteMatch s matchID = .ok r →
      r.players.map (fun p => (p.id, p.rank, p.teamRank)) =
        s.players.map (fun p => (p.id, p.rank, p.teamRank))) ∧
    (∀ (s : DB) (matchID : Nat) (r : DB),
      CancelMatch s matchID = .ok r →
      r.players.map (fun p => (p.id, p.rank, p.teamRank)) =
        s.players.map (fun p => (p.id, p.rank, p.teamRank))) ∧
    (∀ (s : DB) (now : ℤ) (matchID : Nat) (m : TeamMatch) (t1 t2 : Team)
        (p11 p12 p21 p22 : Player),
      findTeamMatch s matchID = some m → m.status = "pending" →
      findTeam s m.team1Id = some t1 → findTeam s m.team2Id = some t2 →
      findPlayer s t1.player1Id = some p11 → findPlayer s t1.player2Id = some p12 →
      findPlayer s t2.player1Id = some p21 → findPlayer s t2.player2Id = some p22 →
      m.team1Id ≠ m.team2Id →
      ∃ s2 : DB, ConfirmTeamMatch s now matchID = .ok (recalculateTeamRanks s2)) := by
  refine ⟨?_, ?_, ?_, ?_⟩
  · intro s now matchID req r h
    simp only [UpdateMatchStatus] at h
    repeat' split at h
    all_goals first
      | exact Except.noConfusion h
      | (obtain rfl := Except.ok.inj h
         first
           | rfl
           | exact (rankProj_updatePlayerStats _ _ _ _ _ _).trans rfl)
  · intro s matchID r h
    simp only [DeleteMatch] at h
    split at h
    · exact Except.noConfusion h
    · split at h
      case _ heq =>
        exact Except.noConfusion h
      case _ s4 heq =>
        obtain rfl := Except.ok.inj h
        split at heq
        · have h4 := rankProj_recalcSubsequent _ _ _ _ _ heq
          exact h4.trans ((rankProj_reversePlayerStats _ _ _ _).trans
            (rankProj_foldl_histories _ _))
        · obtain rfl := Except.ok.inj heq
          rfl
  · intro s matchID r h
    simp only [CancelMatch] at h
    split at h
    · exact Except.noConfusion h
    · obtain rfl := Except.ok.inj h
      rfl
  · intro s now matchID m t1 t2 p11 p12 p21 p22 hm hpend ht1 ht2 hp11 hp12 hp21 hp22 htne
    have ht1id : t1.id = m.team1Id := findTeam_id _ _ _ ht1
    have ht2id : t2.id = m.team2Id := findTeam_id _ _ _ ht2
    have ht1f : s.teams.find? (fun t => t.id == m.team1Id) = some t1 := ht1
    have ht2f : s.teams.find? (fun t => t.id == m.team2Id) = some t2 := ht2
    have hgid : ∀ (tid : Nat) (TM : ℤ) (ER : ℝ) (c : Prop) [Decidable c] (W L : ℤ) (t : Team),
        ((fun t : Team => if t.id = tid then { t with totalMatches := TM, eloRating := ER, wins := if c then W + 1 else t.wins, losses := if c then t.losses else L + 1 } else t) t).id = t.id := by
      intro tid TM ER c inst W L t
      by_cases h : t.id = tid <;> simp [h]
    have hsecond : ∀ (TM : ℤ) (ER : ℝ) (c : Prop) [Decidable c] (W L : ℤ),
        (s.teams.map (fun t => if t.id = m.team1Id then { t with totalMatches := TM, eloRating := ER, wins := if c then W + 1 else t.wins, losses := if c then t.losses else L + 1 } else t)).find? (fun t => t.id == m.team2Id) = some t2 := by
      intro TM ER c inst W L
      rw [findTeam_mapTeams _ _ _ (hgid m.team1Id TM ER c W L), ht2f]
      simp [ht2id, Ne.symm htne]
    unfold ConfirmTeamMatch UpdateTeamMatchStatus
    rw [hm]
    simp [hpend, loadTeam, ht1, ht2, hp11, hp12, hp21, hp22]
    simp only [updateTeamEloAndStats, UpdateTeamStats, CalculateTeamAverageElo, findTeam,
      mapPlayers_teams, saveTeamMatch_teams, ht1f, hsecond]
    exact ⟨_, rfl⟩


/-- C4 counterexample: on a concrete two-player state (both rated 1200, both
holding stored rank 1), confirming the pending match moves the ratings to
1216 and 1184 but leaves both stored rank fields at 1, although the rank
induced by the new ratings gives the loser rank 2. -/
theorem c4_counterexample_solo_confirm_stale_rank :
    Except.map
        (fun r => ((findPlayer r 1).map (fun p => (p.eloRating, p.rank)),
                   (findPlayer r 2).map (fun p => (p.eloRating, p.rank))))
        (ConfirmMatch ⟨[⟨1, 1200, 1, 0, 0, 0, 0, 0, 1200, 0, 0, 0, 0⟩,
                        ⟨2, 1200, 1, 0, 0, 0, 0, 0, 1200, 0, 0, 0, 0⟩],
                       [⟨1, 1, 2, 1, "pending", 0, none, false⟩], [], [], []⟩ 10 1) =
      .ok (some (1216, 1), some (1184, 1)) ∧
    (ranksOf Player.eloRating
        [⟨1, 1216, 1, 1, 1, 0, 0, 0, 1200, 0, 0, 0, 0⟩,
         ⟨2, 1184, 1, 1, 0, 1, 0, 0, 1200, 0, 0, 0, 0⟩]).getD 1 0 = 2 := by
  have hch : CalculateEloChange (1200 : ℝ) 1200 1 1 = (16, -16) :=
    calculateEloChange_equal_ratings_winner1 1200 1 1 rfl
  constructor
  · norm_num [ConfirmMatch, UpdateMatchStatus, findMatch, findPlayer, saveMatch, mapPlayers,
      updatePlayerStatsInTransaction, hch, Except.map, List.find?]
    norm_num [hch, show ((1 : Nat) == 2) = false from rfl, show ((2 : Nat) == 2) = true from rfl]
  · norm_num [ranksOf, ranksFrom]


/-- C1: deleting a confirmed match and cascading does not reproduce the
ratings of never confirming it: on a concrete four-player state with two
player-disjoint matches, confirming both and deleting the first leaves
player 3 at 1247, while never confirming the first match and confirming the
second directly leaves player 3 at 1232 — the cascade re-adds a fresh delta
on top of the stored rating without removing the old one. -/
theorem c1_cascade_double_count :
    Except.map (fun r => (findPlayer r 3).map Player.eloRating)
        (ConfirmMatch (⟨[⟨1, 1200, 0, 0, 0, 0, 0, 0, 1200, 0, 0, 0, 0⟩, ⟨2, 1200, 0, 0, 0, 0, 0, 0, 1200, 0, 0, 0, 0⟩, ⟨3, 1216, 0, 0, 0, 0, 0, 0, 1200, 0, 0, 0, 0⟩, ⟨4, 1216, 0, 0, 0, 0, 0, 0, 1200, 0, 0, 0, 0⟩], [⟨1, 1, 2, 1, "pending", 0, none, false⟩, ⟨2, 3, 4, 3, "pending", 1, none, false⟩], [], [], []⟩ : DB) 10 1 >>= fun s1 =>
          ConfirmMatch s1 20 2 >>= fun s2 => DeleteMatch s2 1) = .ok (some 1247) ∧
    Except.map (fun r => (findPlayer r 3).map Player.eloRating)
        (ConfirmMatch (⟨[⟨1, 1200, 0, 0, 0, 0, 0, 0, 1200, 0, 0, 0, 0⟩, ⟨2, 1200, 0, 0, 0, 0, 0, 0, 1200, 0, 0, 0, 0⟩, ⟨3, 1216, 0, 0, 0, 0, 0, 0, 1200, 0, 0, 0, 0⟩, ⟨4, 1216, 0, 0, 0, 0, 0, 0, 1200, 0, 0, 0, 0⟩], [⟨1, 1, 2, 1, "pending", 0, none, false⟩, ⟨2, 3, 4, 3, "pending", 1, none, false⟩], [], [], []⟩ : DB) 20 2) = .ok (some 1232) ∧
    (1247 : ℝ) ≠ 1232 := by
  have hch1 : CalculateEloChange (1200 : ℝ) 1200 1 1 = (16, -16) :=
    calculateEloChange_equal_ratings_winner1 1200 1 1 rfl
  have hch2 : CalculateEloChange (1216 : ℝ) 1216 3 3 = (16, -16) :=
    calculateEloChange_equal_ratings_winner1 1216 3 3 rfl
  have hch3 : CalculateEloChange (1232 : ℝ) 1200 3 3 = (15, -15) :=
    calculateEloChange_1232_1200 3 3 rfl
  have hbind : ∀ (x : DB) (k : DB → Except String DB),
      ((.ok x : Except String DB) >>= k) = k x := fun x k => rfl
  have hpure : ∀ (x : DB), (pure x : Except String DB) = .ok x := fun x => rfl
  have hsc : (("confirmed" == "confirmed") : Bool) = true := by decide
  have hsp : (("pending" == "confirmed") : Bool) = false := by decide
  have hd1 : (decide ((10 : ℤ) < 10)) = false := by decide
  have hd2 : (decide ((10 : ℤ) < 20)) = true := by decide
  refine ⟨?_, ?_, by norm_num⟩
  · norm_num [ConfirmMatch, UpdateMatchStatus, DeleteMatch, findMatch, findPlayer, saveMatch,
      mapPlayers, updatePlayerStatsInTransaction, reversePlayerStatsInTransaction,
      recalculateSubsequentMatchesInTransaction, recalcStep, List.insertionSort,
      List.orderedInsert, hch1, hch2, hch3, hbind, hpure, hsc, hsp, hd1, hd2,
      List.foldlM_cons, List.foldlM_nil, Except.map, List.find?, List.filter,
      show ((1 : Nat) == 1) = true from rfl,
      show ((1 : Nat) == 2) = false from rfl,
      show ((1 : Nat) == 3) = false from rfl,
      show ((1 : Nat) == 4) = false from rfl,
      show ((2 : Nat) == 1) = false from rfl,
      show ((2 : Nat) == 2) = true from rfl,
      show ((2 : Nat) == 3) = false from rfl,
      show ((2 : Nat) == 4) = false from rfl,
      show ((3 : Nat) == 1) = false from rfl,
      show ((3 : Nat) == 2) = false from rfl,
      show ((3 : Nat) == 3) = true from rfl,
      show ((3 : Nat) == 4) = false from rfl,
      show ((4 : Nat) == 1) = false from rfl,
      show ((4 : Nat) == 2) = false from rfl,
      show ((4 : Nat) == 3) = false from rfl,
      show ((4 : Nat) == 4) = true from rfl]
  · norm_num [ConfirmMatch, UpdateMatchStatus, findMatch, findPlayer, saveMatch,
      mapPlayers, updatePlayerStatsInTransaction, hch2, Except.map, List.find?,
      show ((1 : Nat) == 1) = true from rfl,
      show ((1 : Nat) == 2) = false from rfl,
      show ((1 : Nat) == 3) = false from rfl,
      show ((1 : Nat) == 4) = false from rfl,
      show ((2 : Nat) == 1) = false from rfl,
      show ((2 : Nat) == 2) = true from rfl,
      show ((2 : Nat) == 3) = false from rfl,
      show ((2 : Nat) == 4) = false from rfl,
      show ((3 : Nat) == 1) = false from rfl,
      show ((3 : Nat) == 2) = false from rfl,
      show ((3 : Nat) == 3) = true from rfl,
      show ((3 : Nat) == 4) = false from rfl,
      show ((4 : Nat) == 1) = false from rfl,
      show ((4 : Nat) == 2) = false from rfl,
      show ((4 : Nat) == 3) = false from rfl,
      show ((4 : Nat) == 4) = true from rfl]

end BabApi
